import Mathlib

/-!
# Z80 bus dispatch of Genesis Plus GX (`core/memz80.c`)

A shallow embedding of the Z80 memory and port handlers.  Machine integers are
natural numbers; `unsigned int` arithmetic is reduced modulo `2 ^ 32` where the
C code can overflow.  Functions of other translation units (sound chips, video
device, peripheral controller, 68k bank handlers) are not part of `memz80.c`:
every call to one of them is appended to the call log of the state, and the
value a reading collaborator returns is supplied by an `Env`.
-/

namespace MemZ80

set_option maxRecDepth 8000

/-- Wrap-around of C `unsigned int` arithmetic. -/
def u32 (x : Nat) : Nat := x % 4294967296

/-- Conversion of a value to the C return type `unsigned char`. -/
def u8 (x : Nat) : Nat := x % 256

/-- Array assignment `f[i] = v`. -/
def upd {α : Type} (f : Nat → α) (i : Nat) (v : α) : Nat → α :=
  fun j => if j = i then v else f j

/-- One call made by `memz80.c` into another translation unit, with its arguments in the
order of the C call.  `zbank_read i a` and `zbank_write i a d` stand for the calls through
the function pointers `zbank_memory_map[i].read` and `zbank_memory_map[i].write`. -/
inductive Call where
  | fm_read (cycles address : Nat)
  | fm_write (cycles address data : Nat)
  | gen_zbank_w (data : Nat)
  | zbank_read (index address : Nat)
  | zbank_write (index address data : Nat)
  | io_z80_write (offset data cycles : Nat)
  | io_z80_read (offset : Nat)
  | io_gg_write (offset data : Nat)
  | io_gg_read (offset : Nat)
  | psg_write (cycles data : Nat)
  | psg_config (cycles preamp panning : Nat)
  | vdp_z80_data_w (data : Nat)
  | vdp_z80_ctrl_w (data : Nat)
  | vdp_sms_ctrl_w (data : Nat)
  | vdp_tms_ctrl_w (data : Nat)
  | vdp_z80_data_r
  | vdp_z80_ctrl_r (cycles : Nat)
  | vdp_hvc_r (cycles : Nat)
  deriving DecidableEq, Repr

/-- One entry of `zbank_memory_map`: whether its `read` and `write` function
pointers are set (non-NULL). -/
structure zbank_entry where
  read : Bool
  write : Bool
  deriving DecidableEq, Repr

/-- The globals read or written by `memz80.c`, and the log of collaborator calls. -/
structure State where
  /-- Global `Z80.cycles` -/
  z80_cycles : Nat
  /-- Global `Z80.pc.w.l` -/
  z80_pc : Nat
  /-- Global `m68k.cycles`, an `unsigned int` like `Z80.cycles` -/
  m68k_cycles : Nat
  /-- Global `zstate` -/
  zstate : Nat
  /-- Global `zbank` -/
  zbank : Nat
  /-- Global `zram[0x2000]` -/
  zram : Nat → Nat
  dma_endCycles : Nat
  dma_type : Nat
  dma_length : Nat
  /-- Global `config.force_dtack` -/
  force_dtack : Nat
  /-- Global `config.ym2413` -/
  ym2413 : Nat
  /-- Global `config.psg_preamp` -/
  psg_preamp : Nat
  system_hw : Nat
  region_code : Nat
  /-- Global `io_reg[]` -/
  io_reg : Nat → Nat
  /-- Global `z80_readmap[page][offset]` -/
  z80_readmap : Nat → Nat → Nat
  /-- Global `zbank_memory_map[256]` -/
  zbank_memory_map : Nat → zbank_entry
  /-- Global `m68k.memory_map[i].base`: which buffer the base pointer of entry `i` designates. -/
  m68k_base : Nat → Nat
  /-- Contents of the buffers behind the base pointers: `buffers b a` is the byte that
  `READ_BYTE(base, a)` yields and `WRITE_BYTE(base, a, _)` replaces, for a base pointer
  designating buffer `b`. -/
  buffers : Nat → Nat → Nat
  /-- Calls made into other translation units, oldest first. -/
  calls : List Call

/-- Named constants of `shared.h` and the values returned by reading
collaborators.  None of them is defined in `memz80.c`, so they are parameters.  A
collaborator is taken as the interface the specification lists for it: a call with
arguments that answers a value, which may depend on the whole state at the time of the
call; what the call does inside its own device is outside this file. -/
structure Env where
  PBC_CYCLE_OFFSET : Nat
  SMS_CYCLE_OFFSET : Nat
  SYSTEM_SMS : Nat
  SYSTEM_GG : Nat
  REGION_JAPAN_NTSC : Nat
  fm_read : State → Nat → Nat → Nat
  zbank_read : State → Nat → Nat → Nat
  io_z80_read : State → Nat → Nat
  io_gg_read : State → Nat → Nat
  vdp_z80_data_r : State → Nat
  vdp_z80_ctrl_r : State → Nat → Nat
  vdp_hvc_r : State → Nat → Nat

/-- Append a collaborator call to the log. -/
def State.emit (s : State) (c : Call) : State :=
  { s with calls := s.calls ++ [c] }

/-- Modelled from the spec: the macro `READ_BYTE` is not defined in `memz80.c`; it reads
the owned buffer behind a base pointer at the given offset. -/
def READ_BYTE (s : State) (base addr : Nat) : Nat := s.buffers base addr

/-- Modelled from the spec: the macro `WRITE_BYTE` is not defined in `memz80.c`; it writes
the owned buffer behind a base pointer at the given offset. -/
def WRITE_BYTE (base addr data : Nat) (s : State) : State :=
  { s with buffers := upd s.buffers base (upd (s.buffers base) addr data) }

/-! ## Fault handlers -/

/-- Source function `z80_unused_w`: nothing happens (the log line is compiled out). -/
def z80_unused_w (_address _data : Nat) (s : State) : State := s

/-- Source function `z80_unused_r` -/
def z80_unused_r (_address : Nat) (s : State) : Nat × State := (0xFF, s)

/-- Source function `z80_lockup_w` -/
def z80_lockup_w (_address _data : Nat) (s : State) : State :=
  if s.force_dtack = 0 then
    { s with z80_cycles := 0xFFFFFFFF, zstate := 0 }
  else s

/-- Source function `z80_lockup_r` -/
def z80_lockup_r (_address : Nat) (s : State) : Nat × State :=
  if s.force_dtack = 0 then
    (0xFF, { s with z80_cycles := 0xFFFFFFFF, zstate := 0 })
  else (0xFF, s)

/-! ## Memory handlers (Genesis mode) -/

/-- Source function `z80_request_68k_bus_access` -/
def z80_request_68k_bus_access (s : State) : State :=
  let s1 : State :=
    if s.z80_cycles < s.dma_endCycles ∧ s.dma_type < 2 then
      let s0 : State := { s with z80_cycles := s.dma_endCycles }
      if s0.dma_length ≠ 0 then { s0 with zstate := s0.zstate ||| 4 } else s0
    else s
  let s2 : State :=
    { s1 with m68k_cycles := u32 (s1.m68k_cycles + (((s1.z80_cycles % 7) + 72) / 7) * 7) }
  { s2 with z80_cycles := u32 (s2.z80_cycles + 3 * 15) }

/-- Source function `z80_memory_r` -/
def z80_memory_r (env : Env) (address : Nat) (s : State) : Nat × State :=
  match (address >>> 13) &&& 7 with
  | 0 | 1 => (u8 (s.zram (address &&& 0x1FFF)), s)
  | 2 =>
    (u8 (env.fm_read s s.z80_cycles (address &&& 3)),
      s.emit (.fm_read s.z80_cycles (address &&& 3)))
  | 3 =>
    if address >>> 8 = 0x7F then
      let s1 := z80_request_68k_bus_access s
      (u8 (env.zbank_read s1 0xc0 address), s1.emit (.zbank_read 0xc0 address))
    else z80_unused_r address s
  | _ =>
    let s1 := z80_request_68k_bus_access s
    let address := s1.zbank ||| (address &&& 0x7FFF)
    if (s1.zbank_memory_map (address >>> 16)).read then
      (u8 (env.zbank_read s1 (address >>> 16) address),
        s1.emit (.zbank_read (address >>> 16) address))
    else (u8 (READ_BYTE s1 (s1.m68k_base (address >>> 16)) (address &&& 0xFFFF)), s1)

/-- Source function `z80_memory_w` -/
def z80_memory_w (address data : Nat) (s : State) : State :=
  match (address >>> 13) &&& 7 with
  | 0 | 1 => { s with zram := upd s.zram (address &&& 0x1FFF) data }
  | 2 => s.emit (.fm_write s.z80_cycles (address &&& 3) data)
  | 3 =>
    match address >>> 8 with
    | 0x60 => s.emit (.gen_zbank_w (data &&& 1))
    | 0x7F =>
      let s1 := z80_request_68k_bus_access s
      s1.emit (.zbank_write 0xc0 address data)
    | _ => z80_unused_w address data s
  | _ =>
    let s1 := z80_request_68k_bus_access s
    let address := s1.zbank ||| (address &&& 0x7FFF)
    if (s1.zbank_memory_map (address >>> 16)).write then
      s1.emit (.zbank_write (address >>> 16) address data)
    else WRITE_BYTE (s1.m68k_base (address >>> 16)) (address &&& 0xFFFF) data s1

/-! ## Unused port handlers -/

/-- Source function `z80_unused_port_r`; `Z80.pc.w.l - 1` is computed in two's complement. -/
def z80_unused_port_r (env : Env) (_port : Nat) (s : State) : Nat × State :=
  if s.system_hw = env.SYSTEM_SMS then
    let address := u32 (s.z80_pc + 4294967295) &&& 0xFFFF
    (u8 (s.z80_readmap (address >>> 10) (address &&& 0x3FF)), s)
  else (0xFF, s)

/-- Source function `z80_unused_port_w` -/
def z80_unused_port_w (_port _data : Nat) (s : State) : State := s

/-! ## MegaDrive / Genesis port handlers (Master System compatibility mode) -/

/-- Source function `z80_md_port_w` -/
def z80_md_port_w (env : Env) (port data : Nat) (s : State) : State :=
  match port &&& 0xC1 with
  | 0x01 => s.emit (.io_z80_write 1 data (u32 (s.z80_cycles + env.PBC_CYCLE_OFFSET)))
  | 0x40 | 0x41 => s.emit (.psg_write s.z80_cycles data)
  | 0x80 => s.emit (.vdp_z80_data_w data)
  | 0x81 => s.emit (.vdp_z80_ctrl_w data)
  | _ =>
    let port := port &&& 0xFF
    if port ≥ 0xF0 ∧ s.ym2413 &&& 1 ≠ 0 then
      s.emit (.fm_write s.z80_cycles port data)
    else z80_unused_port_w port data s

/-- Source function `z80_md_port_r`; `Z80.cycles - 15` is computed modulo `2 ^ 32`. -/
def z80_md_port_r (env : Env) (port : Nat) (s : State) : Nat × State :=
  match port &&& 0xC1 with
  | 0x40 =>
    let c := u32 (s.z80_cycles + 4294967296 - 15)
    (u8 ((env.vdp_hvc_r s c >>> 8) &&& 0xFF), s.emit (.vdp_hvc_r c))
  | 0x41 =>
    let c := u32 (s.z80_cycles + 4294967296 - 15)
    (u8 (env.vdp_hvc_r s c &&& 0xFF), s.emit (.vdp_hvc_r c))
  | 0x80 => (u8 (env.vdp_z80_data_r s), s.emit .vdp_z80_data_r)
  | 0x81 => (u8 (env.vdp_z80_ctrl_r s s.z80_cycles), s.emit (.vdp_z80_ctrl_r s.z80_cycles))
  | _ =>
    let port := port &&& 0xFF
    if port = 0xC0 ∨ port = 0xC1 ∨ port = 0xDC ∨ port = 0xDD then
      (u8 (env.io_z80_read s (port &&& 1)), s.emit (.io_z80_read (port &&& 1)))
    else if port ≥ 0xF0 ∧ s.ym2413 &&& 1 ≠ 0 then
      (u8 (env.fm_read s s.z80_cycles port), s.emit (.fm_read s.z80_cycles port))
    else z80_unused_port_r env port s

/-! ## Game Gear port handlers -/

/-- Source function `z80_gg_port_w` -/
def z80_gg_port_w (env : Env) (port data : Nat) (s : State) : State :=
  match port &&& 0xC1 with
  | 0x00 | 0x01 =>
    let port := port &&& 0xFF
    if port < 0x07 then
      if s.system_hw = env.SYSTEM_GG then s.emit (.io_gg_write port data)
      else z80_unused_port_w port data s
    else if port = 0x3E ∨ port = 0x3F then
      s.emit (.io_z80_write (port &&& 1) data (u32 (s.z80_cycles + env.SMS_CYCLE_OFFSET)))
    else z80_unused_port_w port data s
  | 0x40 | 0x41 => s.emit (.psg_write s.z80_cycles data)
  | 0x80 => s.emit (.vdp_z80_data_w data)
  | 0x81 => s.emit (.vdp_sms_ctrl_w data)
  | _ => z80_unused_port_w (port &&& 0xFF) data s

/-- Source function `z80_gg_port_r` -/
def z80_gg_port_r (env : Env) (port : Nat) (s : State) : Nat × State :=
  match port &&& 0xC1 with
  | 0x00 | 0x01 =>
    let port := port &&& 0xFF
    if port < 0x07 then
      if s.system_hw = env.SYSTEM_GG then (u8 (env.io_gg_read s port), s.emit (.io_gg_read port))
      else z80_unused_port_r env port s
    else z80_unused_port_r env port s
  | 0x40 =>
    (u8 ((env.vdp_hvc_r s s.z80_cycles >>> 8) &&& 0xFF), s.emit (.vdp_hvc_r s.z80_cycles))
  | 0x41 =>
    (u8 (env.vdp_hvc_r s s.z80_cycles &&& 0xFF), s.emit (.vdp_hvc_r s.z80_cycles))
  | 0x80 => (u8 (env.vdp_z80_data_r s), s.emit .vdp_z80_data_r)
  | 0x81 => (u8 (env.vdp_z80_ctrl_r s s.z80_cycles), s.emit (.vdp_z80_ctrl_r s.z80_cycles))
  | _ =>
    let port := port &&& 0xFF
    if port = 0xC0 ∨ port = 0xC1 ∨ port = 0xDC ∨ port = 0xDD then
      (u8 (env.io_z80_read s (port &&& 1)), s.emit (.io_z80_read (port &&& 1)))
    else z80_unused_port_r env port s

/-! ## Master System port handlers -/

/-- Source function `z80_ms_port_w` -/
def z80_ms_port_w (env : Env) (port data : Nat) (s : State) : State :=
  match port &&& 0xC1 with
  | 0x00 | 0x01 =>
    if s.region_code ≠ env.REGION_JAPAN_NTSC ∨ port &&& 0xFE = 0x3E then
      s.emit (.io_z80_write (port &&& 1) data (u32 (s.z80_cycles + env.SMS_CYCLE_OFFSET)))
    else z80_unused_port_w (port &&& 0xFF) data s
  | 0x40 | 0x41 => s.emit (.psg_write s.z80_cycles data)
  | 0x80 => s.emit (.vdp_z80_data_w data)
  | 0x81 => s.emit (.vdp_sms_ctrl_w data)
  | _ =>
    if s.ym2413 &&& 1 ≠ 0 then
      if s.region_code = env.REGION_JAPAN_NTSC then
        let port := port &&& 0xFF
        if port = 0xF0 ∨ port = 0xF1 then
          s.emit (.fm_write s.z80_cycles port data)
        else if port = 0xF2 then
          let s1 := s.emit (.psg_config s.z80_cycles s.psg_preamp
            (if (data + 1) &&& 0x02 ≠ 0 then 0x00 else 0xFF))
          let s2 := s1.emit (.fm_write s1.z80_cycles 0x02 data)
          { s2 with io_reg := upd s2.io_reg 6 data }
        else z80_unused_port_w (port &&& 0xFF) data s
      else if port &&& 4 = 0 then
        s.emit (.fm_write s.z80_cycles port data)
      else z80_unused_port_w (port &&& 0xFF) data s
    else z80_unused_port_w (port &&& 0xFF) data s

/-- Source function `z80_ms_port_r` -/
def z80_ms_port_r (env : Env) (port : Nat) (s : State) : Nat × State :=
  match port &&& 0xC1 with
  | 0x00 | 0x01 => z80_unused_port_r env (port &&& 0xFF) s
  | 0x40 =>
    (u8 ((env.vdp_hvc_r s s.z80_cycles >>> 8) &&& 0xFF), s.emit (.vdp_hvc_r s.z80_cycles))
  | 0x41 =>
    (u8 (env.vdp_hvc_r s s.z80_cycles &&& 0xFF), s.emit (.vdp_hvc_r s.z80_cycles))
  | 0x80 => (u8 (env.vdp_z80_data_r s), s.emit .vdp_z80_data_r)
  | 0x81 => (u8 (env.vdp_z80_ctrl_r s s.z80_cycles), s.emit (.vdp_z80_ctrl_r s.z80_cycles))
  | _ =>
    if s.region_code = env.REGION_JAPAN_NTSC then
      let port := port &&& 0xFF
      if port = 0xF2 then (u8 (s.io_reg 0x06 &&& 0x03), s)
      else if port = 0xC0 ∨ port = 0xC1 ∨ port = 0xDC ∨ port = 0xDD then
        if s.io_reg 0x0E &&& 0x04 = 0 then
          (u8 (env.io_z80_read s (port &&& 1)), s.emit (.io_z80_read (port &&& 1)))
        else z80_unused_port_r env port s
      else z80_unused_port_r env port s
    else
      let r1 : Nat × State :=
        if port &&& 4 = 0 ∧ s.ym2413 &&& 1 ≠ 0 then
          (u8 (env.fm_read s s.z80_cycles port), s.emit (.fm_read s.z80_cycles port))
        else (0xFF, s)
      if r1.2.io_reg 0x0E &&& 0x04 = 0 then
        (u8 (r1.1 &&& env.io_z80_read r1.2 (port &&& 1)), r1.2.emit (.io_z80_read (port &&& 1)))
      else (r1.1, r1.2)

/-! ## Mark III port handlers -/

/-- Source function `z80_m3_port_w` -/
def z80_m3_port_w (port data : Nat) (s : State) : State :=
  match port &&& 0xC1 with
  | 0x00 | 0x01 => z80_unused_port_w (port &&& 0xFF) data s
  | 0x40 | 0x41 => s.emit (.psg_write s.z80_cycles data)
  | 0x80 => s.emit (.vdp_z80_data_w data)
  | 0x81 => s.emit (.vdp_sms_ctrl_w data)
  | _ =>
    if port &&& 4 = 0 ∧ s.ym2413 &&& 1 ≠ 0 then
      let s1 := s.emit (.fm_write s.z80_cycles port data)
      if port &&& 2 ≠ 0 then
        s1.emit (.psg_config s1.z80_cycles s1.psg_preamp (if data &&& 0x01 ≠ 0 then 0x00 else 0xff))
      else s1
    else z80_unused_port_w (port &&& 0xFF) data s

/-- Source function `z80_m3_port_r` -/
def z80_m3_port_r (env : Env) (port : Nat) (s : State) : Nat × State :=
  match port &&& 0xC1 with
  | 0x00 | 0x01 => z80_unused_port_r env (port &&& 0xFF) s
  | 0x40 =>
    (u8 ((env.vdp_hvc_r s s.z80_cycles >>> 8) &&& 0xFF), s.emit (.vdp_hvc_r s.z80_cycles))
  | 0x41 =>
    (u8 (env.vdp_hvc_r s s.z80_cycles &&& 0xFF), s.emit (.vdp_hvc_r s.z80_cycles))
  | 0x80 => (u8 (env.vdp_z80_data_r s), s.emit .vdp_z80_data_r)
  | 0x81 => (u8 (env.vdp_z80_ctrl_r s s.z80_cycles), s.emit (.vdp_z80_ctrl_r s.z80_cycles))
  | _ =>
    if port &&& 4 = 0 ∧ s.ym2413 &&& 1 ≠ 0 then
      (u8 (env.fm_read s s.z80_cycles port), s.emit (.fm_read s.z80_cycles port))
    else (u8 (env.io_z80_read s (port &&& 1)), s.emit (.io_z80_read (port &&& 1)))

/-! ## SG-1000 port handlers -/

/-- Source function `z80_sg_port_w` -/
def z80_sg_port_w (port data : Nat) (s : State) : State :=
  match port &&& 0xC1 with
  | 0x40 | 0x41 =>
    let s1 := s.emit (.psg_write s.z80_cycles data)
    { s1 with z80_cycles := u32 (s1.z80_cycles + 32 * 15) }
  | 0x80 => s.emit (.vdp_z80_data_w data)
  | 0x81 => s.emit (.vdp_tms_ctrl_w data)
  | _ => z80_unused_port_w (port &&& 0xFF) data s

/-- Source function `z80_sg_port_r` -/
def z80_sg_port_r (env : Env) (port : Nat) (s : State) : Nat × State :=
  match port &&& 0xC1 with
  | 0x80 => (u8 (env.vdp_z80_data_r s), s.emit .vdp_z80_data_r)
  | 0x81 => (u8 (env.vdp_z80_ctrl_r s s.z80_cycles), s.emit (.vdp_z80_ctrl_r s.z80_cycles))
  | 0xC0 | 0xC1 => (u8 (env.io_z80_read s (port &&& 1)), s.emit (.io_z80_read (port &&& 1)))
  | _ => z80_unused_port_r env (port &&& 0xFF) s

/-! ## Example inputs -/

/-- A state with every counter at zero, cleared memories, no DMA and no bank handler. -/
def State.zero : State where
  z80_cycles := 0
  z80_pc := 0
  m68k_cycles := 0
  zstate := 1
  zbank := 0
  zram := fun _ => 0
  dma_endCycles := 0
  dma_type := 0
  dma_length := 0
  force_dtack := 0
  ym2413 := 0
  psg_preamp := 0
  system_hw := 0
  region_code := 0
  io_reg := fun _ => 0
  z80_readmap := fun _ _ => 0
  zbank_memory_map := fun _ => ⟨false, false⟩
  m68k_base := fun i => i
  buffers := fun _ _ => 0
  calls := []

/-- An environment for examples: every reading collaborator answers `0x1234`. -/
def Env.demo : Env where
  PBC_CYCLE_OFFSET := 550
  SMS_CYCLE_OFFSET := 530
  SYSTEM_SMS := 0x20
  SYSTEM_GG := 0x40
  REGION_JAPAN_NTSC := 0x00
  fm_read := fun _ _ _ => 0x1234
  zbank_read := fun _ _ _ => 0x1234
  io_z80_read := fun _ _ => 0x1234
  io_gg_read := fun _ _ => 0x1234
  vdp_z80_data_r := fun _ => 0x1234
  vdp_z80_ctrl_r := fun _ _ => 0x1234
  vdp_hvc_r := fun _ _ => 0x1234

/-- A state in which a bus-contending DMA (type 0, 16 bytes left) ends at cycle 5 while the
Z80 is at cycle 0. -/
def State.dma_busy : State :=
  { State.zero with dma_endCycles := 5, dma_type := 0, dma_length := 16 }

/-- A state in which the Z80 (cycle 100) is already past the end of the DMA (cycle 5). -/
def State.dma_done : State :=
  { State.zero with z80_cycles := 100, dma_endCycles := 5, dma_type := 0, dma_length := 0 }

/-- A state with the `force_dtack` option switched on. -/
def State.dtack : State :=
  { State.zero with force_dtack := 1, z80_cycles := 7 }

/-- A state whose bank register selects the 32K window at `0xFF8000`. -/
def State.banked : State :=
  { State.zero with zbank := 0xFF8000 }

/-- A state with the Z80 at cycle 1000. -/
def State.late : State :=
  { State.zero with z80_cycles := 1000 }

/-- A state with the FM chip enabled (`config.ym2413 = 1`), in the region the example
environment takes as `REGION_JAPAN_NTSC`. -/
def State.fm_on : State :=
  { State.zero with ym2413 := 1, z80_cycles := 1000, psg_preamp := 150 }

/-- A state outside the `REGION_JAPAN_NTSC` region, FM chip disabled. -/
def State.export : State :=
  { State.zero with region_code := 0x80 }

/-- A state on the hardware the example environment takes as `SYSTEM_GG`. -/
def State.gg : State :=
  { State.zero with system_hw := 0x40 }

/-- A state on the hardware the example environment takes as `SYSTEM_SMS`, with the
program counter at 0 and a read map holding `0x76` at the last byte of the address space. -/
def State.sms_pc0 : State :=
  { State.zero with
    system_hw := 0x20
    z80_readmap := fun page off => if page = 63 ∧ off = 0x3FF then 0x76 else 0 }

/-! ## Theorems -/

/-- Masking with 7 is the remainder modulo 8. -/
theorem and_7 (x : Nat) : x &&& 7 = x % 8 := Nat.and_pow_two_sub_one_eq_mod x 3

/-- The region selector `(address >> 13) & 7` in arithmetic form. -/
theorem region_eq (a : Nat) : (a >>> 13) &&& 7 = a / 8192 % 8 := by
  rw [and_7, Nat.shiftRight_eq_div_pow]

/-- C1 (RAM mirroring): for addresses `a1`, `a2` below `0x4000` with the same low 13 bits and
a byte `d`, `z80_memory_r a2` after `z80_memory_w a1 d` returns `d` and leaves the state as
the write left it; the write changes nothing but the RAM cell `a1 & 0x1FFF`. -/
theorem z80_ram_mirror (env : Env) (s : State) (a1 a2 d : Nat)
    (h1 : a1 < 0x4000) (h2 : a2 < 0x4000) (hd : d < 256)
    (h : a1 &&& 0x1FFF = a2 &&& 0x1FFF) :
    z80_memory_r env a2 (z80_memory_w a1 d s) = (d, z80_memory_w a1 d s) ∧
    z80_memory_w a1 d s = { s with zram := upd s.zram (a1 &&& 0x1FFF) d } := by
  have k1 : (a1 >>> 13) &&& 7 = 0 ∨ (a1 >>> 13) &&& 7 = 1 := by
    rw [region_eq]; omega
  have k2 : (a2 >>> 13) &&& 7 = 0 ∨ (a2 >>> 13) &&& 7 = 1 := by
    rw [region_eq]; omega
  have w : z80_memory_w a1 d s = { s with zram := upd s.zram (a1 &&& 0x1FFF) d } := by
    unfold z80_memory_w
    rcases k1 with k | k <;> rw [k]
  refine ⟨?_, w⟩
  rw [w]
  unfold z80_memory_r
  rcases k2 with k | k <;> rw [k] <;>
    simp only [h, upd, if_true, u8, Nat.mod_eq_of_lt hd]

/-- Witness of C1: a write of `0x5A` at `0x0123` is read back at the mirror `0x2123`. -/
theorem z80_ram_mirror_witness :
    (0x0123 &&& 0x1FFF = 0x2123 &&& 0x1FFF) ∧
    (z80_memory_r Env.demo 0x2123 (z80_memory_w 0x0123 0x5A State.zero)).1 = 0x5A :=
  ⟨by decide,
   congrArg Prod.fst (z80_ram_mirror Env.demo State.zero 0x0123 0x2123 0x5A
     (by decide) (by decide) (by decide) (by decide)).1⟩

/-- C2 (Z80 cycle after arbitration): absent 32-bit wrap-around, one call of
`z80_request_68k_bus_access` leaves `Z80.cycles` at `dma_endCycles + 45` when `dma_type < 2`
and `Z80.cycles < dma_endCycles`, and at `Z80.cycles + 45` in every other case. -/
theorem bus_access_z80_cycles (s : State) :
    (s.dma_type < 2 ∧ s.z80_cycles < s.dma_endCycles → s.dma_endCycles + 45 < 2 ^ 32 →
      (z80_request_68k_bus_access s).z80_cycles = s.dma_endCycles + 45) ∧
    (¬ (s.dma_type < 2 ∧ s.z80_cycles < s.dma_endCycles) → s.z80_cycles + 45 < 2 ^ 32 →
      (z80_request_68k_bus_access s).z80_cycles = s.z80_cycles + 45) := by
  constructor
  · rintro ⟨ht, hc⟩ hw
    have hcond : s.z80_cycles < s.dma_endCycles ∧ s.dma_type < 2 := ⟨hc, ht⟩
    simp only [z80_request_68k_bus_access, hcond, and_self, if_true, u32]
    split <;> simp only [] <;> omega
  · intro hn hw
    have hcond : ¬ (s.z80_cycles < s.dma_endCycles ∧ s.dma_type < 2) := fun h => hn ⟨h.2, h.1⟩
    simp only [z80_request_68k_bus_access, hcond, if_false, u32]
    omega

/-- Witness of C2: a stalled call ends at `5 + 45`, an unstalled one at `100 + 45`. -/
theorem bus_access_z80_cycles_witness :
    (z80_request_68k_bus_access State.dma_busy).z80_cycles = 5 + 45 ∧
    (z80_request_68k_bus_access State.dma_done).z80_cycles = 100 + 45 :=
  ⟨(bus_access_z80_cycles State.dma_busy).1 (by decide) (by decide),
   (bus_access_z80_cycles State.dma_done).2 (by decide) (by decide)⟩

/-- C3, counterexample: with the Z80 at cycle 0 and a bus-contending DMA ending at cycle 5,
one arbitration call charges the 68k 77 cycles, the value of the formula at the DMA end
cycle 5, and not the 70 cycles the formula gives at the pre-stall cycle 0. -/
theorem bus_access_m68k_charge_pre_stall_counterexample :
    (z80_request_68k_bus_access State.dma_busy).m68k_cycles =
      State.dma_busy.m68k_cycles + 77 ∧
    (((State.dma_busy.z80_cycles % 7) + 72) / 7) * 7 = 70 ∧
    ¬ ((z80_request_68k_bus_access State.dma_busy).m68k_cycles =
      State.dma_busy.m68k_cycles + (((State.dma_busy.z80_cycles % 7) + 72) / 7) * 7) := by
  decide

/-- C3, amended: one arbitration call adds `(((c' % 7) + 72) / 7) * 7` to `m68k.cycles`
(modulo `2 ^ 32`), where `c'` is `Z80.cycles` after the DMA stall of step 1: `dma_endCycles`
when the stall happens, the Z80 cycle before the call otherwise. -/
theorem bus_access_m68k_charge (s : State) :
    (z80_request_68k_bus_access s).m68k_cycles =
      u32 (s.m68k_cycles +
        ((((if s.z80_cycles < s.dma_endCycles ∧ s.dma_type < 2 then s.dma_endCycles
            else s.z80_cycles) % 7) + 72) / 7) * 7) := by
  unfold z80_request_68k_bus_access
  by_cases hc : s.z80_cycles < s.dma_endCycles ∧ s.dma_type < 2
  · simp only [hc, and_self, if_true]
    split <;> rfl
  · simp only [hc, if_false]

/-- C4 (owed-bus-access bit): one arbitration call turns `zstate` into `zstate | 4` when the
stall happens (`dma_type < 2`, `Z80.cycles < dma_endCycles`) and `dma_length` is nonzero,
and leaves `zstate` unchanged otherwise; in the first case bit 2 is set afterwards, and in
every case every other bit keeps its value. -/
theorem bus_access_zstate (s : State) :
    ((s.dma_type < 2 ∧ s.z80_cycles < s.dma_endCycles) ∧ s.dma_length ≠ 0 →
      (z80_request_68k_bus_access s).zstate = s.zstate ||| 4 ∧
      (z80_request_68k_bus_access s).zstate.testBit 2 = true) ∧
    (¬ ((s.dma_type < 2 ∧ s.z80_cycles < s.dma_endCycles) ∧ s.dma_length ≠ 0) →
      (z80_request_68k_bus_access s).zstate = s.zstate) ∧
    (∀ i, i ≠ 2 →
      (z80_request_68k_bus_access s).zstate.testBit i = s.zstate.testBit i) := by
  have h4 : ∀ i, i ≠ 2 → Nat.testBit 4 i = false := by
    intro i hi
    have : (4 : Nat) = 2 ^ 2 := by norm_num
    rw [this, Nat.testBit_two_pow]
    simp only [decide_eq_false_iff_not]
    omega
  have h42 : Nat.testBit 4 2 = true := by decide
  unfold z80_request_68k_bus_access
  by_cases hc : s.z80_cycles < s.dma_endCycles ∧ s.dma_type < 2
  · by_cases hl : s.dma_length = 0
    · simp only [hc, and_self, if_true, hl, ne_eq, not_true_eq_false, if_false, and_false,
        false_implies, true_and, not_false_eq_true, true_implies, implies_true]
    · have hcond : (s.dma_type < 2 ∧ s.z80_cycles < s.dma_endCycles) ∧ s.dma_length ≠ 0 :=
        ⟨⟨hc.2, hc.1⟩, hl⟩
      simp only [hc, and_self, if_true, hl, ne_eq, not_false_eq_true, and_true,
        true_implies, not_true_eq_false, false_implies, true_and, Nat.testBit_or, h42,
        Bool.or_true]
      intro i hi
      rw [h4 i hi, Bool.or_false]
  · have hn : ¬ ((s.dma_type < 2 ∧ s.z80_cycles < s.dma_endCycles) ∧ s.dma_length ≠ 0) :=
      fun h => hc ⟨h.1.2, h.1.1⟩
    simp only [hc, if_false]
    refine ⟨fun h => absurd h hn, fun _ => trivial, fun _ _ => trivial⟩

/-- Witness of C4: with a pending DMA the bit is set (`1` becomes `5`), without a stall
`zstate` stays `1`. -/
theorem bus_access_zstate_witness :
    ((z80_request_68k_bus_access State.dma_busy).zstate = State.dma_busy.zstate ||| 4 ∧
      (z80_request_68k_bus_access State.dma_busy).zstate.testBit 2 = true) ∧
    (z80_request_68k_bus_access State.dma_done).zstate = State.dma_done.zstate :=
  ⟨(bus_access_zstate State.dma_busy).1 (by decide),
   (bus_access_zstate State.dma_done).2.1 (by decide)⟩

/-- C5 (lockup idempotence): with `config.force_dtack` off, `z80_lockup_w` and
`z80_lockup_r` each leave `Z80.cycles` at `0xFFFFFFFF` and `zstate` at zero (so bit 0 is
clear), and a second call of the handler, at any address and data, returns the state the
first call produced. -/
theorem lockup_idempotent (s : State) (a d a2 d2 : Nat) (h : s.force_dtack = 0) :
    ((z80_lockup_w a d s).z80_cycles = 0xFFFFFFFF ∧
      (z80_lockup_w a d s).zstate = 0 ∧
      (z80_lockup_w a d s).zstate.testBit 0 = false ∧
      z80_lockup_w a2 d2 (z80_lockup_w a d s) = z80_lockup_w a d s) ∧
    ((z80_lockup_r a s).2.z80_cycles = 0xFFFFFFFF ∧
      (z80_lockup_r a s).2.zstate = 0 ∧
      (z80_lockup_r a s).2.zstate.testBit 0 = false ∧
      (z80_lockup_r a2 (z80_lockup_r a s).2).2 = (z80_lockup_r a s).2) := by
  simp only [z80_lockup_w, z80_lockup_r, h, if_true, Nat.zero_testBit, and_self]

/-- Witness of C5 on the example state, whose `force_dtack` is off. -/
theorem lockup_idempotent_witness :
    State.zero.force_dtack = 0 ∧
    (z80_lockup_w 0x6000 0 State.zero).z80_cycles = 0xFFFFFFFF ∧
    z80_lockup_w 0x6001 1 (z80_lockup_w 0x6000 0 State.zero) =
      z80_lockup_w 0x6000 0 State.zero :=
  ⟨by decide,
   (lockup_idempotent State.zero 0x6000 0 0x6001 1 (by decide)).1.1,
   (lockup_idempotent State.zero 0x6000 0 0x6001 1 (by decide)).1.2.2.2⟩

/-- C6 (lockup override): with `config.force_dtack` on, `z80_lockup_w` and `z80_lockup_r`
return the state they were given, for every address and data; `z80_lockup_r` returns
`0xFF` whether or not the option is on. -/
theorem lockup_override (s : State) (a d : Nat) :
    (s.force_dtack ≠ 0 → z80_lockup_w a d s = s ∧ (z80_lockup_r a s).2 = s) ∧
    (z80_lockup_r a s).1 = 0xFF := by
  unfold z80_lockup_w z80_lockup_r
  by_cases h : s.force_dtack = 0
  · simp only [h, if_true, ne_eq, not_true_eq_false, false_implies, and_self]
  · simp only [h, if_false, ne_eq, not_false_eq_true, true_implies, and_self]

/-- Witness of C6 on a state with `force_dtack` on. -/
theorem lockup_override_witness :
    State.dtack.force_dtack ≠ 0 ∧
    z80_lockup_w 0x6000 0 State.dtack = State.dtack ∧
    (z80_lockup_r 0x6000 State.dtack).2 = State.dtack :=
  ⟨by decide, (lockup_override State.dtack 0x6000 0).1 (by decide)⟩

/-- Masking with `0x7FFF` is the remainder modulo `2 ^ 15`. -/
theorem and_7FFF (x : Nat) : x &&& 0x7FFF = x % 32768 := Nat.and_pow_two_sub_one_eq_mod x 15

/-- Masking with `0xFFFF` is the remainder modulo `2 ^ 16`. -/
theorem and_FFFF (x : Nat) : x &&& 0xFFFF = x % 65536 := Nat.and_pow_two_sub_one_eq_mod x 16

/-- Masking with `0xFF` is the remainder modulo `2 ^ 8`. -/
theorem and_FF (x : Nat) : x &&& 0xFF = x % 256 := Nat.and_pow_two_sub_one_eq_mod x 8

/-- A value with its low 15 bits clear is or-ed with a 15-bit value by adding it. -/
theorem bank_or_eq_add (b r : Nat) (hb : b % 32768 = 0) (hr : r < 32768) :
    b ||| r = b + r := by
  have h := Nat.mul_add_lt_is_or (show r < 2 ^ 15 by norm_num; exact hr) (b / 32768)
  have hb2 : 2 ^ 15 * (b / 32768) = b := by
    have := Nat.div_add_mod b 32768
    norm_num
    omega
  rw [hb2] at h
  exact h.symm

/-- Arbitration touches only the two cycle counters and `zstate`. -/
theorem bus_access_frame (s : State) :
    z80_request_68k_bus_access s =
      { s with
        z80_cycles := (z80_request_68k_bus_access s).z80_cycles
        m68k_cycles := (z80_request_68k_bus_access s).m68k_cycles
        zstate := (z80_request_68k_bus_access s).zstate } := by
  unfold z80_request_68k_bus_access
  by_cases hc : s.z80_cycles < s.dma_endCycles ∧ s.dma_type < 2
  · by_cases hl : s.dma_length = 0 <;>
      simp only [hc, and_self, if_true, hl, ne_eq, not_true_eq_false, not_false_eq_true,
        if_false]
  · simp only [hc, if_false]

/-- Arbitration leaves the bank register alone. -/
theorem bus_access_zbank (s : State) : (z80_request_68k_bus_access s).zbank = s.zbank := by
  rw [bus_access_frame]

/-- Arbitration leaves the bank table alone. -/
theorem bus_access_zbank_memory_map (s : State) :
    (z80_request_68k_bus_access s).zbank_memory_map = s.zbank_memory_map := by
  rw [bus_access_frame]

/-- Arbitration leaves the 68k memory map alone. -/
theorem bus_access_m68k_base (s : State) :
    (z80_request_68k_bus_access s).m68k_base = s.m68k_base := by
  rw [bus_access_frame]

/-- C7 (banked access): for a bank register `b < 2 ^ 24` with its low 15 bits clear and a
16-bit address `a ≥ 0x8000`, the effective address `e = b | (a & 0x7FFF)` has low 15 bits
`a & 0x7FFF` and table index `e >> 16 = b >> 16 < 256`; after arbitration, `z80_memory_r`
and `z80_memory_w` call the handler of `zbank_memory_map[e >> 16]` with `e` when it is set,
and otherwise access the buffer of `m68k.memory_map[e >> 16]` at `e & 0xFFFF`. -/
theorem banked_access (env : Env) (s : State) (a d : Nat)
    (ha : 0x8000 ≤ a) (ha16 : a < 0x10000)
    (hb : s.zbank < 2 ^ 24) (hb0 : s.zbank &&& 0x7FFF = 0) :
    (s.zbank ||| (a &&& 0x7FFF)) &&& 0x7FFF = a &&& 0x7FFF ∧
    (s.zbank ||| (a &&& 0x7FFF)) >>> 16 = s.zbank >>> 16 ∧
    (s.zbank ||| (a &&& 0x7FFF)) >>> 16 < 256 ∧
    z80_memory_r env a s =
      (if (s.zbank_memory_map ((s.zbank ||| (a &&& 0x7FFF)) >>> 16)).read then
        (u8 (env.zbank_read (z80_request_68k_bus_access s)
            ((s.zbank ||| (a &&& 0x7FFF)) >>> 16) (s.zbank ||| (a &&& 0x7FFF))),
          (z80_request_68k_bus_access s).emit
            (.zbank_read ((s.zbank ||| (a &&& 0x7FFF)) >>> 16) (s.zbank ||| (a &&& 0x7FFF))))
      else
        (u8 (READ_BYTE (z80_request_68k_bus_access s)
            (s.m68k_base ((s.zbank ||| (a &&& 0x7FFF)) >>> 16))
            ((s.zbank ||| (a &&& 0x7FFF)) &&& 0xFFFF)),
          z80_request_68k_bus_access s)) ∧
    z80_memory_w a d s =
      (if (s.zbank_memory_map ((s.zbank ||| (a &&& 0x7FFF)) >>> 16)).write then
        (z80_request_68k_bus_access s).emit
          (.zbank_write ((s.zbank ||| (a &&& 0x7FFF)) >>> 16) (s.zbank ||| (a &&& 0x7FFF)) d)
      else
        WRITE_BYTE (s.m68k_base ((s.zbank ||| (a &&& 0x7FFF)) >>> 16))
          ((s.zbank ||| (a &&& 0x7FFF)) &&& 0xFFFF) d (z80_request_68k_bus_access s)) := by
  have hb0' : s.zbank % 32768 = 0 := by rw [← and_7FFF]; exact hb0
  have hr : a &&& 0x7FFF < 32768 := by rw [and_7FFF]; omega
  have he : s.zbank ||| (a &&& 0x7FFF) = s.zbank + a % 32768 := by
    rw [bank_or_eq_add _ _ hb0' hr, and_7FFF]
  have hb' : s.zbank < 16777216 := by norm_num at hb; exact hb
  have hreg : ∀ k, k < 4 → (a >>> 13) &&& 7 ≠ k := by
    intro k hk; rw [region_eq]; omega
  refine ⟨?_, ?_, ?_, ?_, ?_⟩
  · rw [he]; simp only [and_7FFF]; omega
  · rw [he]; simp only [Nat.shiftRight_eq_div_pow]; norm_num; omega
  · rw [he]; simp only [Nat.shiftRight_eq_div_pow]; norm_num; omega
  · unfold z80_memory_r
    split
    · next h => exact absurd h (hreg 0 (by decide))
    · next h => exact absurd h (hreg 1 (by decide))
    · next h => exact absurd h (hreg 2 (by decide))
    · next h => exact absurd h (hreg 3 (by decide))
    · simp only [bus_access_zbank, bus_access_zbank_memory_map, bus_access_m68k_base]
  · unfold z80_memory_w
    split
    · next h => exact absurd h (hreg 0 (by decide))
    · next h => exact absurd h (hreg 1 (by decide))
    · next h => exact absurd h (hreg 2 (by decide))
    · next h => exact absurd h (hreg 3 (by decide))
    · simp only [bus_access_zbank, bus_access_zbank_memory_map, bus_access_m68k_base]

/-- Witness of C7: with bank `0xFF8000`, a write of `0x5A` at `0x8123` goes through entry
`0xFF` at effective address `0xFF8123`. -/
theorem banked_access_witness :
    (State.banked.zbank < 2 ^ 24 ∧ State.banked.zbank &&& 0x7FFF = 0) ∧
    (State.banked.zbank ||| (0x8123 &&& 0x7FFF)) >>> 16 = State.banked.zbank >>> 16 ∧
    z80_memory_w 0x8123 0x5A State.banked =
      (if (State.banked.zbank_memory_map
          ((State.banked.zbank ||| (0x8123 &&& 0x7FFF)) >>> 16)).write then
        (z80_request_68k_bus_access State.banked).emit
          (.zbank_write ((State.banked.zbank ||| (0x8123 &&& 0x7FFF)) >>> 16)
            (State.banked.zbank ||| (0x8123 &&& 0x7FFF)) 0x5A)
      else
        WRITE_BYTE (State.banked.m68k_base ((State.banked.zbank ||| (0x8123 &&& 0x7FFF)) >>> 16))
          ((State.banked.zbank ||| (0x8123 &&& 0x7FFF)) &&& 0xFFFF) 0x5A
          (z80_request_68k_bus_access State.banked)) :=
  ⟨⟨by decide, by decide⟩,
   (banked_access Env.demo State.banked 0x8123 0x5A (by decide) (by decide)
     (by decide) (by decide)).2.1,
   (banked_access Env.demo State.banked 0x8123 0x5A (by decide) (by decide)
     (by decide) (by decide)).2.2.2.2⟩

/-- C8 (region `0x6000`-`0x7FFF`): an access with top byte `0x7F` runs arbitration once and
then calls the handler of `zbank_memory_map[0xC0]` with the unchanged 16-bit address; a
write with top byte `0x60` passes `data & 1` to `gen_zbank_w` and nothing else; every other
read returns `0xFF` and every other write does nothing, the state being left as it was. -/
theorem region_c_decode (env : Env) (s : State) (a d : Nat)
    (hlo : 0x6000 ≤ a) (hhi : a < 0x8000) :
    (a >>> 8 = 0x7F →
      z80_memory_r env a s =
        (u8 (env.zbank_read (z80_request_68k_bus_access s) 0xC0 a),
          (z80_request_68k_bus_access s).emit (.zbank_read 0xC0 a)) ∧
      z80_memory_w a d s = (z80_request_68k_bus_access s).emit (.zbank_write 0xC0 a d)) ∧
    (a >>> 8 = 0x60 → z80_memory_w a d s = s.emit (.gen_zbank_w (d &&& 1))) ∧
    (a >>> 8 ≠ 0x7F → z80_memory_r env a s = (0xFF, s)) ∧
    (a >>> 8 ≠ 0x7F → a >>> 8 ≠ 0x60 → z80_memory_w a d s = s) := by
  have hreg : (a >>> 13) &&& 7 = 3 := by rw [region_eq]; omega
  have hr : ∀ t : State, z80_memory_r env a t =
      if a >>> 8 = 0x7F then
        (u8 (env.zbank_read (z80_request_68k_bus_access t) 0xC0 a),
          (z80_request_68k_bus_access t).emit (.zbank_read 0xC0 a))
      else (0xFF, t) := by
    intro t; unfold z80_memory_r; rw [hreg]; rfl
  refine ⟨fun h => ⟨?_, ?_⟩, fun h => ?_, fun h => ?_, fun h h2 => ?_⟩
  · rw [hr, if_pos h]
  · unfold z80_memory_w; rw [hreg, h]
  · unfold z80_memory_w; rw [hreg, h]
  · rw [hr, if_neg h]
  · unfold z80_memory_w; rw [hreg]
    simp only []
    rfl

/-- Witness of C8: `0x7F11` is forwarded to entry `0xC0` after arbitration, a write at
`0x6000` reaches `gen_zbank_w` with bit 0 of the data, a read at `0x6000` and a write at
`0x6100` are unused. -/
theorem region_c_decode_witness :
    z80_memory_w 0x7F11 0x5A State.zero =
      (z80_request_68k_bus_access State.zero).emit (.zbank_write 0xC0 0x7F11 0x5A) ∧
    z80_memory_w 0x6000 0x03 State.zero = State.zero.emit (.gen_zbank_w (0x03 &&& 1)) ∧
    z80_memory_r Env.demo 0x6000 State.zero = (0xFF, State.zero) ∧
    z80_memory_w 0x6100 0x5A State.zero = State.zero :=
  ⟨((region_c_decode Env.demo State.zero 0x7F11 0x5A (by decide) (by decide)).1
      (by decide)).2,
   (region_c_decode Env.demo State.zero 0x6000 0x03 (by decide) (by decide)).2.1 (by decide),
   (region_c_decode Env.demo State.zero 0x6000 0x03 (by decide) (by decide)).2.2.1
      (by decide),
   (region_c_decode Env.demo State.zero 0x6100 0x5A (by decide) (by decide)).2.2.2
      (by decide) (by decide)⟩

/-- Masking a port with `0xC1` only looks at its low byte. -/
theorem and_C1_low_byte (p : Nat) : (p % 256) &&& 0xC1 = p &&& 0xC1 := by
  rw [← and_FF, Nat.and_assoc]; rfl

/-- A port in bucket `0x00` has a low byte below `0x40`. -/
theorem bucket_00_lt (p : Nat) (h : p &&& 0xC1 = 0x00) : p &&& 0xFF < 0x40 := by
  have key : ∀ q, q < 256 → q &&& 0xC1 = 0x00 → q < 0x40 := by decide
  rw [and_FF]
  exact key (p % 256) (Nat.mod_lt _ (by norm_num)) (by rw [and_C1_low_byte]; exact h)

/-- A port in bucket `0x01` is odd. -/
theorem bucket_01_odd (p : Nat) (h : p &&& 0xC1 = 0x01) : p &&& 1 = 1 := by
  have h1 : (p &&& 0xC1) &&& 1 = p &&& 1 := by rw [Nat.and_assoc]; rfl
  rw [← h1, h]; rfl

/-- C9, counterexample: on port `0x00` (masked value `0x00`) the write of `0x05` through
`z80_md_port_w` makes no call at all, so the peripheral controller write is not invoked. -/
theorem md_port_w_peripheral_bucket_counterexample :
    (0x00 &&& 0xC1 = 0x00) ∧
    (z80_md_port_w Env.demo 0x00 0x05 State.zero).calls = [] ∧
    Call.io_z80_write (0x00 &&& 1) 0x05
        (u32 (State.zero.z80_cycles + Env.demo.PBC_CYCLE_OFFSET)) ∉
      (z80_md_port_w Env.demo 0x00 0x05 State.zero).calls := by
  decide

/-- C9, amended: for every port `p` with `(p & 0xC1) = 0x01` and every `d`, `z80_md_port_w`
makes exactly the call `io_z80_write(1, d, Z80.cycles + PBC_CYCLE_OFFSET)`, where
`1 = p & 1`; for every port with `(p & 0xC1) = 0x00` the write is unused and leaves the
state as it was. -/
theorem md_port_w_peripheral_bucket (env : Env) (s : State) (p d : Nat) :
    (p &&& 0xC1 = 0x01 →
      z80_md_port_w env p d s =
        s.emit (.io_z80_write 1 d (u32 (s.z80_cycles + env.PBC_CYCLE_OFFSET))) ∧
      p &&& 1 = 1) ∧
    (p &&& 0xC1 = 0x00 → z80_md_port_w env p d s = s) := by
  refine ⟨fun h => ⟨?_, bucket_01_odd p h⟩, fun h => ?_⟩
  · unfold z80_md_port_w; rw [h]
  · have hlt := bucket_00_lt p h
    have hn : ¬ (p &&& 0xFF ≥ 0xF0 ∧ s.ym2413 &&& 1 ≠ 0) := fun hc => by omega
    unfold z80_md_port_w; rw [h]
    simp only [hn, if_false]
    rfl

/-- Witness of C9 (amended): the write of `0x05` to port `0x01` reaches the peripheral
controller; the write of `0x05` to port `0x3E` does nothing. -/
theorem md_port_w_peripheral_bucket_witness :
    z80_md_port_w Env.demo 0x01 0x05 State.zero =
      State.zero.emit
        (.io_z80_write 1 0x05 (u32 (State.zero.z80_cycles + Env.demo.PBC_CYCLE_OFFSET))) ∧
    z80_md_port_w Env.demo 0x3E 0x05 State.zero = State.zero :=
  ⟨((md_port_w_peripheral_bucket Env.demo State.zero 0x01 0x05).1 (by decide)).1,
   (md_port_w_peripheral_bucket Env.demo State.zero 0x3E 0x05).2 (by decide)⟩

/-- A value masked with `0xFF` already is an `unsigned char`. -/
theorem u8_and_FF (x : Nat) : u8 (x &&& 0xFF) = x &&& 0xFF := by
  unfold u8; rw [and_FF, Nat.mod_mod]

/-- C10 (H-V counter reads): on a port with `(p & 0xC1) = 0x40` the read returns bits 8-15,
and with `(p & 0xC1) = 0x41` bits 0-7, of `vdp_hvc_r(c)`; `z80_md_port_r` takes
`c = Z80.cycles - 15` (unsigned 32-bit, which is `Z80.cycles - 15` from cycle 15 on), while
`z80_gg_port_r`, `z80_ms_port_r` and `z80_m3_port_r` take `c = Z80.cycles`; the state after
the read differs from the state before only by the logged `vdp_hvc_r` call. -/
theorem hvc_port_reads (env : Env) (s : State) (p : Nat) :
    (p &&& 0xC1 = 0x40 →
      z80_md_port_r env p s =
        ((env.vdp_hvc_r s (u32 (s.z80_cycles + 4294967296 - 15)) >>> 8) &&& 0xFF,
          { s with calls := s.calls ++ [.vdp_hvc_r (u32 (s.z80_cycles + 4294967296 - 15))] }) ∧
      z80_gg_port_r env p s =
        ((env.vdp_hvc_r s s.z80_cycles >>> 8) &&& 0xFF,
          { s with calls := s.calls ++ [.vdp_hvc_r s.z80_cycles] }) ∧
      z80_ms_port_r env p s =
        ((env.vdp_hvc_r s s.z80_cycles >>> 8) &&& 0xFF,
          { s with calls := s.calls ++ [.vdp_hvc_r s.z80_cycles] }) ∧
      z80_m3_port_r env p s =
        ((env.vdp_hvc_r s s.z80_cycles >>> 8) &&& 0xFF,
          { s with calls := s.calls ++ [.vdp_hvc_r s.z80_cycles] })) ∧
    (p &&& 0xC1 = 0x41 →
      z80_md_port_r env p s =
        (env.vdp_hvc_r s (u32 (s.z80_cycles + 4294967296 - 15)) &&& 0xFF,
          { s with calls := s.calls ++ [.vdp_hvc_r (u32 (s.z80_cycles + 4294967296 - 15))] }) ∧
      z80_gg_port_r env p s =
        (env.vdp_hvc_r s s.z80_cycles &&& 0xFF,
          { s with calls := s.calls ++ [.vdp_hvc_r s.z80_cycles] }) ∧
      z80_ms_port_r env p s =
        (env.vdp_hvc_r s s.z80_cycles &&& 0xFF,
          { s with calls := s.calls ++ [.vdp_hvc_r s.z80_cycles] }) ∧
      z80_m3_port_r env p s =
        (env.vdp_hvc_r s s.z80_cycles &&& 0xFF,
          { s with calls := s.calls ++ [.vdp_hvc_r s.z80_cycles] })) ∧
    (15 ≤ s.z80_cycles → s.z80_cycles < 2 ^ 32 →
      u32 (s.z80_cycles + 4294967296 - 15) = s.z80_cycles - 15) := by
  refine ⟨fun h => ⟨?_, ?_, ?_, ?_⟩, fun h => ⟨?_, ?_, ?_, ?_⟩, fun h1 h2 => ?_⟩
  · unfold z80_md_port_r; rw [h]; simp only [u8_and_FF, State.emit]
  · unfold z80_gg_port_r; rw [h]; simp only [u8_and_FF, State.emit]
  · unfold z80_ms_port_r; rw [h]; simp only [u8_and_FF, State.emit]
  · unfold z80_m3_port_r; rw [h]; simp only [u8_and_FF, State.emit]
  · unfold z80_md_port_r; rw [h]; simp only [u8_and_FF, State.emit]
  · unfold z80_gg_port_r; rw [h]; simp only [u8_and_FF, State.emit]
  · unfold z80_ms_port_r; rw [h]; simp only [u8_and_FF, State.emit]
  · unfold z80_m3_port_r; rw [h]; simp only [u8_and_FF, State.emit]
  · unfold u32; norm_num at h2; omega

/-- Witness of C10: after the write of `0x05` to port `0x01`, the read of port `0x41` in
Genesis mode returns the low byte of the H-V counter sampled 15 cycles back; the Master
System read of port `0x40` at cycle 1000 returns the high byte sampled at cycle 1000. -/
theorem hvc_port_reads_witness :
    (z80_md_port_r Env.demo 0x41 (z80_md_port_w Env.demo 0x01 0x05 State.zero)).1 =
      Env.demo.vdp_hvc_r (z80_md_port_w Env.demo 0x01 0x05 State.zero)
        (u32 ((z80_md_port_w Env.demo 0x01 0x05 State.zero).z80_cycles + 4294967296 - 15))
        &&& 0xFF ∧
    (z80_ms_port_r Env.demo 0x40 State.late).1 =
      (Env.demo.vdp_hvc_r State.late State.late.z80_cycles >>> 8) &&& 0xFF ∧
    u32 (State.late.z80_cycles + 4294967296 - 15) = State.late.z80_cycles - 15 :=
  ⟨congrArg Prod.fst
     ((hvc_port_reads Env.demo (z80_md_port_w Env.demo 0x01 0x05 State.zero) 0x41).2.1
       (by decide)).1,
   congrArg Prod.fst ((hvc_port_reads Env.demo State.late 0x40).1 (by decide)).2.2.1,
   (hvc_port_reads Env.demo State.late 0x40).2.2 (by decide) (by decide)⟩

/-- The read at an unused port never changes the state. -/
theorem unused_port_r_state (env : Env) (s : State) (port : Nat) :
    (z80_unused_port_r env port s).2 = s := by
  unfold z80_unused_port_r
  split <;> rfl

/-- A low byte from `0xF0` on is none of the four peripheral read ports. -/
theorem fm_range_not_io (q : Nat) (h : q ≥ 0xF0) :
    ¬ (q = 0xC0 ∨ q = 0xC1 ∨ q = 0xDC ∨ q = 0xDD) := by
  omega

/-- C11, counterexample: in Genesis mode the read of port `0xC0` (default bucket, low byte
outside `0xF0`-`0xFF`) is not unused: it calls `io_z80_read(0)` and returns that answer
(`0x34`), not the unused-port value `0xFF`. -/
theorem md_default_bucket_counterexample :
    (0xC0 &&& 0xC1 = 0xC0) ∧ ¬ (0xC0 &&& 0xFF ≥ 0xF0) ∧
    (z80_md_port_r Env.demo 0xC0 State.zero).2.calls = [Call.io_z80_read 0] ∧
    (z80_md_port_r Env.demo 0xC0 State.zero).1 = 0x34 ∧
    (z80_unused_port_r Env.demo 0xC0 State.zero).1 = 0xFF ∧
    (z80_md_port_r Env.demo 0xC0 State.zero).1 ≠
      (z80_unused_port_r Env.demo 0xC0 State.zero).1 := by
  decide

/-- C11, amended: for a port `p` with `(p & 0xC1)` equal to `0xC0` or `0xC1`,
`z80_md_port_w` and `z80_md_port_r` call the FM chip exactly when the low byte of `p` is at
least `0xF0` and `config.ym2413 & 1` is set; otherwise the write does nothing, a read whose
low byte is `0xC0`, `0xC1`, `0xDC` or `0xDD` returns `io_z80_read(p & 1)`, and every other
read is the unused-port read, which leaves the state as it is. -/
theorem md_default_bucket (env : Env) (s : State) (p d : Nat)
    (hb : p &&& 0xC1 = 0xC0 ∨ p &&& 0xC1 = 0xC1) :
    (p &&& 0xFF ≥ 0xF0 ∧ s.ym2413 &&& 1 ≠ 0 →
      z80_md_port_w env p d s = s.emit (.fm_write s.z80_cycles (p &&& 0xFF) d) ∧
      z80_md_port_r env p s =
        (u8 (env.fm_read s s.z80_cycles (p &&& 0xFF)),
          s.emit (.fm_read s.z80_cycles (p &&& 0xFF)))) ∧
    (¬ (p &&& 0xFF ≥ 0xF0 ∧ s.ym2413 &&& 1 ≠ 0) →
      z80_md_port_w env p d s = s ∧
      (p &&& 0xFF = 0xC0 ∨ p &&& 0xFF = 0xC1 ∨ p &&& 0xFF = 0xDC ∨ p &&& 0xFF = 0xDD →
        z80_md_port_r env p s =
          (u8 (env.io_z80_read s ((p &&& 0xFF) &&& 1)),
            s.emit (.io_z80_read ((p &&& 0xFF) &&& 1)))) ∧
      (¬ (p &&& 0xFF = 0xC0 ∨ p &&& 0xFF = 0xC1 ∨ p &&& 0xFF = 0xDC ∨ p &&& 0xFF = 0xDD) →
        z80_md_port_r env p s = z80_unused_port_r env (p &&& 0xFF) s ∧
        (z80_md_port_r env p s).2 = s)) := by
  have hw : z80_md_port_w env p d s =
      if p &&& 0xFF ≥ 0xF0 ∧ s.ym2413 &&& 1 ≠ 0 then
        s.emit (.fm_write s.z80_cycles (p &&& 0xFF) d)
      else s := by
    unfold z80_md_port_w
    rcases hb with h | h <;> rw [h] <;> rfl
  have hr : z80_md_port_r env p s =
      if p &&& 0xFF = 0xC0 ∨ p &&& 0xFF = 0xC1 ∨ p &&& 0xFF = 0xDC ∨ p &&& 0xFF = 0xDD then
        (u8 (env.io_z80_read s ((p &&& 0xFF) &&& 1)),
          s.emit (.io_z80_read ((p &&& 0xFF) &&& 1)))
      else if p &&& 0xFF ≥ 0xF0 ∧ s.ym2413 &&& 1 ≠ 0 then
        (u8 (env.fm_read s s.z80_cycles (p &&& 0xFF)),
          s.emit (.fm_read s.z80_cycles (p &&& 0xFF)))
      else z80_unused_port_r env (p &&& 0xFF) s := by
    unfold z80_md_port_r
    rcases hb with h | h <;> rw [h]
  refine ⟨fun hfm => ⟨?_, ?_⟩, fun hn => ⟨?_, fun hio => ?_, fun hnio => ?_⟩⟩
  · rw [hw, if_pos hfm]
  · rw [hr, if_neg (fm_range_not_io _ hfm.1), if_pos hfm]
  · rw [hw, if_neg hn]
  · rw [hr, if_pos hio]
  · have e : z80_md_port_r env p s = z80_unused_port_r env (p &&& 0xFF) s := by
      rw [hr, if_neg hnio, if_neg hn]
    exact ⟨e, by rw [e, unused_port_r_state]⟩

/-- Witness of C11 (amended): with the FM flag set, a write to port `0xF1` reaches the FM
chip; with it clear, the same write does nothing and a read of port `0xC1` goes to the
peripheral controller. -/
theorem md_default_bucket_witness :
    z80_md_port_w Env.demo 0xF1 0x05 State.fm_on =
      State.fm_on.emit (.fm_write State.fm_on.z80_cycles (0xF1 &&& 0xFF) 0x05) ∧
    z80_md_port_w Env.demo 0xF1 0x05 State.zero = State.zero ∧
    z80_md_port_r Env.demo 0xC1 State.zero =
      (u8 (Env.demo.io_z80_read State.zero ((0xC1 &&& 0xFF) &&& 1)),
        State.zero.emit (.io_z80_read ((0xC1 &&& 0xFF) &&& 1))) :=
  ⟨((md_default_bucket Env.demo State.fm_on 0xF1 0x05 (by decide)).1 (by decide)).1,
   ((md_default_bucket Env.demo State.zero 0xF1 0x05 (by decide)).2 (by decide)).1,
   ((md_default_bucket Env.demo State.zero 0xC1 0x05 (by decide)).2 (by decide)).2.1
     (by decide)⟩

/-- Bit test `x & 2` in terms of bit 1 of `x`. -/
theorem and_2_ne_zero_iff (x : Nat) : x &&& 0x02 ≠ 0 ↔ x.testBit 1 = true := by
  have h2 : ∀ i, Nat.testBit 2 i = decide (1 = i) := by
    intro i
    have := @Nat.testBit_two_pow 1 i
    simpa using this
  constructor
  · intro h
    by_contra hb
    apply h
    apply Nat.eq_of_testBit_eq
    intro i
    rw [Nat.testBit_and, h2, Nat.zero_testBit]
    by_cases hi : 1 = i
    · subst hi; simp only [Bool.not_eq_true] at hb; rw [hb]; rfl
    · simp only [hi, decide_False, Bool.and_false]
  · intro hb h
    have h1 : (x &&& 0x02).testBit 1 = false := by rw [h, Nat.zero_testBit]
    rw [Nat.testBit_and, hb, h2] at h1
    simp at h1

/-- A port whose low byte is `0xF2` lies in the default bucket `0xC0`. -/
theorem low_F2_bucket (p : Nat) (h : p &&& 0xFF = 0xF2) : p &&& 0xC1 = 0xC0 := by
  have h1 : (p &&& 0xFF) &&& 0xC1 = p &&& 0xC1 := by rw [Nat.and_assoc]; rfl
  rw [← h1, h]; rfl

/-- The audio-control branch of `z80_ms_port_w`, as the code writes it. -/
theorem ms_port_w_F2 (env : Env) (s : State) (p v : Nat)
    (hp : p &&& 0xFF = 0xF2) (hreg : s.region_code = env.REGION_JAPAN_NTSC)
    (hfm : s.ym2413 &&& 1 ≠ 0) :
    z80_ms_port_w env p v s =
      { s with
        calls := s.calls ++
          [.psg_config s.z80_cycles s.psg_preamp (if (v + 1) &&& 0x02 ≠ 0 then 0x00 else 0xFF),
           .fm_write s.z80_cycles 0x02 v]
        io_reg := upd s.io_reg 6 v } := by
  unfold z80_ms_port_w
  rw [low_F2_bucket p hp]
  simp only [hp, hreg, hfm, ne_eq, not_false_eq_true, if_true, State.emit,
    List.append_assoc, List.singleton_append]
  simp

/-- C12 (audio-control write): in the `REGION_JAPAN_NTSC` region with `config.ym2413 & 1`
set, `z80_ms_port_w` on a port with low byte `0xF2` makes exactly the calls
`psg_config(Z80.cycles, config.psg_preamp, m)` and `fm_write(Z80.cycles, 0x02, v)` and
stores `v` in `io_reg[6]`, where the mask `m` is `0x00` when bit 1 of `v + 1` (computed
without 8-bit wrap-around) is set and `0xFF` when it is clear. -/
theorem ms_audio_control_write (env : Env) (s : State) (p v : Nat)
    (hp : p &&& 0xFF = 0xF2) (hreg : s.region_code = env.REGION_JAPAN_NTSC)
    (hfm : s.ym2413 &&& 1 ≠ 0) :
    z80_ms_port_w env p v s =
      { s with
        calls := s.calls ++
          [.psg_config s.z80_cycles s.psg_preamp (if (v + 1).testBit 1 then 0x00 else 0xFF),
           .fm_write s.z80_cycles 0x02 v]
        io_reg := upd s.io_reg 6 v } := by
  have hbit : (if (v + 1) &&& 0x02 ≠ 0 then 0x00 else 0xFF) =
      (if (v + 1).testBit 1 then 0x00 else 0xFF) := by
    by_cases hb : (v + 1).testBit 1 = true
    · rw [if_pos ((and_2_ne_zero_iff _).2 hb), if_pos hb]
    · rw [if_neg (fun h => hb ((and_2_ne_zero_iff _).1 h)), if_neg hb]
  rw [ms_port_w_F2 env s p v hp hreg hfm, hbit]

/-- Witness of C12: the write of `0x02` to port `0xF2` sets the mute mask `0x00`, sends
`(0x02, 0x02)` to the FM chip and leaves `0x02` in `io_reg[6]`. -/
theorem ms_audio_control_write_witness :
    (z80_ms_port_w Env.demo 0xF2 0x02 State.fm_on).calls =
      [.psg_config 1000 150 0x00, .fm_write 1000 0x02 0x02] ∧
    (z80_ms_port_w Env.demo 0xF2 0x02 State.fm_on).io_reg 6 = 0x02 :=
  ⟨(congrArg State.calls (ms_audio_control_write Env.demo State.fm_on 0xF2 0x02
      (by decide) (by decide) (by decide))).trans (by decide),
   (congrFun (congrArg State.io_reg (ms_audio_control_write Env.demo State.fm_on 0xF2 0x02
      (by decide) (by decide) (by decide))) 6).trans (by decide)⟩

/-- A value masked with `0x03` already is an `unsigned char`. -/
theorem u8_and_3 (x : Nat) : u8 (x &&& 0x03) = x &&& 0x03 := by
  unfold u8
  have h : x &&& 0x03 ≤ 0x03 := Nat.and_le_right
  omega

/-- C13 (shared status register round trip): in the `REGION_JAPAN_NTSC` region with
`config.ym2413 & 1` set, `z80_ms_port_r` on a port with low byte `0xF2`, executed after
`z80_ms_port_w` wrote `v` to a port with low byte `0xF2`, returns `v & 0x03` and leaves the
state as the write left it. -/
theorem ms_status_round_trip (env : Env) (s : State) (p1 p2 v : Nat)
    (hp1 : p1 &&& 0xFF = 0xF2) (hp2 : p2 &&& 0xFF = 0xF2)
    (hreg : s.region_code = env.REGION_JAPAN_NTSC) (hfm : s.ym2413 &&& 1 ≠ 0) :
    z80_ms_port_r env p2 (z80_ms_port_w env p1 v s) =
      (v &&& 0x03, z80_ms_port_w env p1 v s) := by
  have hw := ms_port_w_F2 env s p1 v hp1 hreg hfm
  have hreg2 : (z80_ms_port_w env p1 v s).region_code = env.REGION_JAPAN_NTSC := by
    rw [hw]; exact hreg
  have hio : (z80_ms_port_w env p1 v s).io_reg 0x06 = v := by
    rw [hw]; simp only [upd, if_true]
  unfold z80_ms_port_r
  rw [low_F2_bucket p2 hp2]
  simp only [hreg2, hp2, if_true, hio, u8_and_3]

/-- Witness of C13: after the write of `0x07` to port `0xF2`, the read of port `0xF2`
returns `0x03`. -/
theorem ms_status_round_trip_witness :
    (z80_ms_port_r Env.demo 0xF2 (z80_ms_port_w Env.demo 0xF2 0x07 State.fm_on)).1 =
      0x07 &&& 0x03 :=
  congrArg Prod.fst (ms_status_round_trip Env.demo State.fm_on 0xF2 0xF2 0x07
    (by decide) (by decide) (by decide) (by decide))

/-- Every port falls in one of the eight values of the mask `0xC1`. -/
theorem bucket_cases (p : Nat) :
    p &&& 0xC1 = 0x00 ∨ p &&& 0xC1 = 0x01 ∨ p &&& 0xC1 = 0x40 ∨ p &&& 0xC1 = 0x41 ∨
    p &&& 0xC1 = 0x80 ∨ p &&& 0xC1 = 0x81 ∨ p &&& 0xC1 = 0xC0 ∨ p &&& 0xC1 = 0xC1 := by
  have key : ∀ q, q < 256 →
      (q &&& 0xC1 = 0x00 ∨ q &&& 0xC1 = 0x01 ∨ q &&& 0xC1 = 0x40 ∨ q &&& 0xC1 = 0x41 ∨
       q &&& 0xC1 = 0x80 ∨ q &&& 0xC1 = 0x81 ∨ q &&& 0xC1 = 0xC0 ∨ q &&& 0xC1 = 0xC1) := by
    decide
  have := key (p % 256) (Nat.mod_lt _ (by norm_num))
  rw [and_C1_low_byte] at this
  exact this

/-- C14 (SG-1000 sound-generator write stall): for a port with `(p & 0xC1)` equal to `0x40`
or `0x41`, `z80_sg_port_w` calls `psg_write(c, d)` with the cycle `c` before the call and
then adds 480 to `Z80.cycles` (exactly 480 absent 32-bit wrap-around); on every other port
`z80_sg_port_w` leaves `Z80.cycles` as it is, and the sound-generator write of the other
four variants is the call `psg_write(c, d)` alone, `Z80.cycles` staying as it is. -/
theorem sg_psg_write_stall (env : Env) (s : State) (p d : Nat) :
    (p &&& 0xC1 = 0x40 ∨ p &&& 0xC1 = 0x41 →
      z80_sg_port_w p d s =
        { s with
          calls := s.calls ++ [.psg_write s.z80_cycles d]
          z80_cycles := u32 (s.z80_cycles + 480) } ∧
      (s.z80_cycles + 480 < 2 ^ 32 → (z80_sg_port_w p d s).z80_cycles = s.z80_cycles + 480) ∧
      z80_md_port_w env p d s = s.emit (.psg_write s.z80_cycles d) ∧
      z80_gg_port_w env p d s = s.emit (.psg_write s.z80_cycles d) ∧
      z80_ms_port_w env p d s = s.emit (.psg_write s.z80_cycles d) ∧
      z80_m3_port_w p d s = s.emit (.psg_write s.z80_cycles d) ∧
      (s.emit (.psg_write s.z80_cycles d)).z80_cycles = s.z80_cycles) ∧
    (¬ (p &&& 0xC1 = 0x40 ∨ p &&& 0xC1 = 0x41) →
      (z80_sg_port_w p d s).z80_cycles = s.z80_cycles) := by
  constructor
  · intro hb
    have hsg : z80_sg_port_w p d s =
        { s with
          calls := s.calls ++ [.psg_write s.z80_cycles d]
          z80_cycles := u32 (s.z80_cycles + 480) } := by
      unfold z80_sg_port_w
      rcases hb with h | h <;> rw [h] <;> rfl
    refine ⟨hsg, ?_, ?_, ?_, ?_, ?_, rfl⟩
    · intro hw
      rw [hsg]
      simp only [u32]
      norm_num at hw
      omega
    · unfold z80_md_port_w; rcases hb with h | h <;> rw [h]
    · unfold z80_gg_port_w; rcases hb with h | h <;> rw [h]
    · unfold z80_ms_port_w; rcases hb with h | h <;> rw [h]
    · unfold z80_m3_port_w; rcases hb with h | h <;> rw [h]
  · intro hn
    unfold z80_sg_port_w
    rcases bucket_cases p with h | h | h | h | h | h | h | h
    · rw [h]; rfl
    · rw [h]; rfl
    · exact absurd (Or.inl h) hn
    · exact absurd (Or.inr h) hn
    · rw [h]; rfl
    · rw [h]; rfl
    · rw [h]; rfl
    · rw [h]; rfl

/-- Witness of C14: the write of `0x9F` to port `0x41` at cycle 1000 logs
`psg_write(1000, 0x9F)` and ends at cycle 1480; a write to port `0x80` keeps cycle 1000. -/
theorem sg_psg_write_stall_witness :
    (z80_sg_port_w 0x41 0x9F State.late).calls = [.psg_write 1000 0x9F] ∧
    (z80_sg_port_w 0x41 0x9F State.late).z80_cycles = State.late.z80_cycles + 480 ∧
    (z80_sg_port_w 0x80 0x9F State.late).z80_cycles = State.late.z80_cycles :=
  ⟨(congrArg State.calls
      ((sg_psg_write_stall Env.demo State.late 0x41 0x9F).1 (by decide)).1).trans (by decide),
   ((sg_psg_write_stall Env.demo State.late 0x41 0x9F).1 (by decide)).2.1 (by decide),
   (sg_psg_write_stall Env.demo State.late 0x80 0x9F).2 (by decide)⟩

/-- C15, counterexample: on port `0x81` the Genesis-mode write calls `vdp_z80_ctrl_w`
while the Master System write calls `vdp_sms_ctrl_w`, so the two variants do not forward
the control-port write to one and the same operation. -/
theorem video_ctrl_write_uniform_counterexample :
    (0x81 &&& 0xC1 = 0x81) ∧
    (z80_md_port_w Env.demo 0x81 0x05 State.zero).calls = [Call.vdp_z80_ctrl_w 0x05] ∧
    (z80_ms_port_w Env.demo 0x81 0x05 State.zero).calls = [Call.vdp_sms_ctrl_w 0x05] ∧
    z80_md_port_w Env.demo 0x81 0x05 State.zero ≠
      z80_ms_port_w Env.demo 0x81 0x05 State.zero := by
  refine ⟨by decide, by decide, by decide, fun h => ?_⟩
  have hc := congrArg State.calls h
  revert hc
  decide

/-- C15, amended: on a port with `(p & 0xC1) = 0x80` all five variants make the same call
`vdp_z80_data_w(d)` on a write and `vdp_z80_data_r()` on a read; on a port with
`(p & 0xC1) = 0x81` all five make the same call `vdp_z80_ctrl_r(Z80.cycles)` on a read,
the Game Gear, Master System and Mark III writes make the same call `vdp_sms_ctrl_w(d)`,
the Genesis-mode write calls `vdp_z80_ctrl_w(d)` and the SG-1000 write `vdp_tms_ctrl_w(d)`. -/
theorem video_buckets (env : Env) (s : State) (p d : Nat) :
    (p &&& 0xC1 = 0x80 →
      (z80_md_port_w env p d s = s.emit (.vdp_z80_data_w d) ∧
       z80_gg_port_w env p d s = s.emit (.vdp_z80_data_w d) ∧
       z80_ms_port_w env p d s = s.emit (.vdp_z80_data_w d) ∧
       z80_m3_port_w p d s = s.emit (.vdp_z80_data_w d) ∧
       z80_sg_port_w p d s = s.emit (.vdp_z80_data_w d)) ∧
      (z80_md_port_r env p s = (u8 (env.vdp_z80_data_r s), s.emit .vdp_z80_data_r) ∧
       z80_gg_port_r env p s = (u8 (env.vdp_z80_data_r s), s.emit .vdp_z80_data_r) ∧
       z80_ms_port_r env p s = (u8 (env.vdp_z80_data_r s), s.emit .vdp_z80_data_r) ∧
       z80_m3_port_r env p s = (u8 (env.vdp_z80_data_r s), s.emit .vdp_z80_data_r) ∧
       z80_sg_port_r env p s = (u8 (env.vdp_z80_data_r s), s.emit .vdp_z80_data_r))) ∧
    (p &&& 0xC1 = 0x81 →
      (z80_md_port_r env p s =
         (u8 (env.vdp_z80_ctrl_r s s.z80_cycles), s.emit (.vdp_z80_ctrl_r s.z80_cycles)) ∧
       z80_gg_port_r env p s =
         (u8 (env.vdp_z80_ctrl_r s s.z80_cycles), s.emit (.vdp_z80_ctrl_r s.z80_cycles)) ∧
       z80_ms_port_r env p s =
         (u8 (env.vdp_z80_ctrl_r s s.z80_cycles), s.emit (.vdp_z80_ctrl_r s.z80_cycles)) ∧
       z80_m3_port_r env p s =
         (u8 (env.vdp_z80_ctrl_r s s.z80_cycles), s.emit (.vdp_z80_ctrl_r s.z80_cycles)) ∧
       z80_sg_port_r env p s =
         (u8 (env.vdp_z80_ctrl_r s s.z80_cycles), s.emit (.vdp_z80_ctrl_r s.z80_cycles))) ∧
      (z80_gg_port_w env p d s = s.emit (.vdp_sms_ctrl_w d) ∧
       z80_ms_port_w env p d s = s.emit (.vdp_sms_ctrl_w d) ∧
       z80_m3_port_w p d s = s.emit (.vdp_sms_ctrl_w d) ∧
       z80_md_port_w env p d s = s.emit (.vdp_z80_ctrl_w d) ∧
       z80_sg_port_w p d s = s.emit (.vdp_tms_ctrl_w d))) := by
  constructor
  · intro h
    refine ⟨⟨?_, ?_, ?_, ?_, ?_⟩, ⟨?_, ?_, ?_, ?_, ?_⟩⟩
    · unfold z80_md_port_w; rw [h]
    · unfold z80_gg_port_w; rw [h]
    · unfold z80_ms_port_w; rw [h]
    · unfold z80_m3_port_w; rw [h]
    · unfold z80_sg_port_w; rw [h]
    · unfold z80_md_port_r; rw [h]
    · unfold z80_gg_port_r; rw [h]
    · unfold z80_ms_port_r; rw [h]
    · unfold z80_m3_port_r; rw [h]
    · unfold z80_sg_port_r; rw [h]
  · intro h
    refine ⟨⟨?_, ?_, ?_, ?_, ?_⟩, ⟨?_, ?_, ?_, ?_, ?_⟩⟩
    · unfold z80_md_port_r; rw [h]
    · unfold z80_gg_port_r; rw [h]
    · unfold z80_ms_port_r; rw [h]
    · unfold z80_m3_port_r; rw [h]
    · unfold z80_sg_port_r; rw [h]
    · unfold z80_gg_port_w; rw [h]
    · unfold z80_ms_port_w; rw [h]
    · unfold z80_m3_port_w; rw [h]
    · unfold z80_md_port_w; rw [h]
    · unfold z80_sg_port_w; rw [h]

/-- Witness of C15 (amended): on port `0xBF` (masked `0x81`) the Game Gear and Mark III
writes make the same call, and on port `0xBE` (masked `0x80`) the Genesis-mode and SG-1000
writes make the same call. -/
theorem video_buckets_witness :
    z80_gg_port_w Env.demo 0xBF 0x05 State.zero = z80_m3_port_w 0xBF 0x05 State.zero ∧
    z80_md_port_w Env.demo 0xBE 0x05 State.zero = z80_sg_port_w 0xBE 0x05 State.zero :=
  ⟨(((video_buckets Env.demo State.zero 0xBF 0x05).2 (by decide)).2.1).trans
     (((video_buckets Env.demo State.zero 0xBF 0x05).2 (by decide)).2.2.2.1).symm,
   (((video_buckets Env.demo State.zero 0xBE 0x05).1 (by decide)).1.1).trans
     (((video_buckets Env.demo State.zero 0xBE 0x05).1 (by decide)).1.2.2.2.2).symm⟩

/-- The test `(port & 0xFE) == 0x3E` holds exactly for the low bytes `0x3E` and `0x3F`. -/
theorem and_FE_eq_3E_iff (p : Nat) :
    p &&& 0xFE = 0x3E ↔ (p &&& 0xFF = 0x3E ∨ p &&& 0xFF = 0x3F) := by
  have hlow : (p % 256) &&& 0xFE = p &&& 0xFE := by
    rw [← and_FF, Nat.and_assoc]; rfl
  have key : ∀ q, q < 256 → (q &&& 0xFE = 0x3E ↔ (q = 0x3E ∨ q = 0x3F)) := by decide
  have := key (p % 256) (Nat.mod_lt _ (by norm_num))
  rw [hlow] at this
  rw [and_FF]
  exact this

/-- Bit 0 of a port is bit 0 of its low byte. -/
theorem and_1_low_byte (p : Nat) : (p &&& 0xFF) &&& 1 = p &&& 1 := by
  rw [Nat.and_assoc]; rfl

/-- C16 (Master System peripheral bucket): for a port with `(p & 0xC1)` equal to `0x00` or
`0x01`, `z80_ms_port_w` makes the call `io_z80_write(p & 1, d, Z80.cycles + SMS_CYCLE_OFFSET)`
exactly when the region is not `REGION_JAPAN_NTSC` or the low byte of `p` is `0x3E` or
`0x3F`, and does nothing otherwise; `z80_ms_port_r` on such a port is the unused-port read
in every region, which leaves the state as it is. -/
theorem ms_peripheral_bucket (env : Env) (s : State) (p d : Nat)
    (hb : p &&& 0xC1 = 0x00 ∨ p &&& 0xC1 = 0x01) :
    (s.region_code ≠ env.REGION_JAPAN_NTSC ∨ p &&& 0xFF = 0x3E ∨ p &&& 0xFF = 0x3F →
      z80_ms_port_w env p d s =
        s.emit (.io_z80_write (p &&& 1) d (u32 (s.z80_cycles + env.SMS_CYCLE_OFFSET)))) ∧
    (¬ (s.region_code ≠ env.REGION_JAPAN_NTSC ∨ p &&& 0xFF = 0x3E ∨ p &&& 0xFF = 0x3F) →
      z80_ms_port_w env p d s = s) ∧
    z80_ms_port_r env p s = z80_unused_port_r env (p &&& 0xFF) s ∧
    (z80_ms_port_r env p s).2 = s := by
  have hw : z80_ms_port_w env p d s =
      if s.region_code ≠ env.REGION_JAPAN_NTSC ∨ p &&& 0xFE = 0x3E then
        s.emit (.io_z80_write (p &&& 1) d (u32 (s.z80_cycles + env.SMS_CYCLE_OFFSET)))
      else s := by
    unfold z80_ms_port_w
    rcases hb with h | h <;> rw [h] <;> rfl
  have hr : z80_ms_port_r env p s = z80_unused_port_r env (p &&& 0xFF) s := by
    unfold z80_ms_port_r
    rcases hb with h | h <;> rw [h]
  refine ⟨fun hc => ?_, fun hn => ?_, hr, by rw [hr, unused_port_r_state]⟩
  · have hc2 : s.region_code ≠ env.REGION_JAPAN_NTSC ∨ p &&& 0xFE = 0x3E := by
      rcases hc with h | h
      · exact Or.inl h
      · exact Or.inr ((and_FE_eq_3E_iff p).2 h)
    rw [hw, if_pos hc2]
  · have hn2 : ¬ (s.region_code ≠ env.REGION_JAPAN_NTSC ∨ p &&& 0xFE = 0x3E) := by
      intro h
      rcases h with h | h
      · exact hn (Or.inl h)
      · exact hn (Or.inr ((and_FE_eq_3E_iff p).1 h))
    rw [hw, if_neg hn2]

/-- Witness of C16: in the `REGION_JAPAN_NTSC` region a write to port `0x3F` reaches the
peripheral controller and a write to port `0x01` does nothing; outside that region the
write to port `0x01` reaches the peripheral controller. -/
theorem ms_peripheral_bucket_witness :
    z80_ms_port_w Env.demo 0x3F 0x05 State.zero =
      State.zero.emit (.io_z80_write (0x3F &&& 1) 0x05
        (u32 (State.zero.z80_cycles + Env.demo.SMS_CYCLE_OFFSET))) ∧
    z80_ms_port_w Env.demo 0x01 0x05 State.zero = State.zero ∧
    z80_ms_port_w Env.demo 0x01 0x05 State.export =
      State.export.emit (.io_z80_write (0x01 &&& 1) 0x05
        (u32 (State.export.z80_cycles + Env.demo.SMS_CYCLE_OFFSET))) :=
  ⟨(ms_peripheral_bucket Env.demo State.zero 0x3F 0x05 (by decide)).1 (by decide),
   (ms_peripheral_bucket Env.demo State.zero 0x01 0x05 (by decide)).2.1 (by decide),
   (ms_peripheral_bucket Env.demo State.export 0x01 0x05 (by decide)).1 (by decide)⟩

/-- C17, counterexample: with the FM flag unset, the Mark III write of `0x05` to port
`0xC0` (default bucket) makes no call at all, so nothing is forwarded to the peripheral
controller. -/
theorem m3_default_bucket_fm_off_counterexample :
    (0xC0 &&& 0xC1 = 0xC0) ∧ State.zero.ym2413 &&& 1 = 0 ∧
    (z80_m3_port_w 0xC0 0x05 State.zero).calls = [] ∧
    (∀ offset cycles,
      Call.io_z80_write offset 0x05 cycles ∉ (z80_m3_port_w 0xC0 0x05 State.zero).calls) := by
  refine ⟨by decide, by decide, by decide, fun offset cycles h => ?_⟩
  have hc : (z80_m3_port_w 0xC0 0x05 State.zero).calls = [] := by decide
  rw [hc] at h
  exact List.not_mem_nil _ h

/-- C17, amended: with `config.ym2413 & 1` clear, for a port with `(p & 0xC1)` equal to
`0xC0` or `0xC1`, `z80_m3_port_r` returns `io_z80_read(p & 1)` with no further gating, and
`z80_m3_port_w` is the unused-port write: the state stays as it is. -/
theorem m3_default_bucket_fm_off (env : Env) (s : State) (p d : Nat)
    (hb : p &&& 0xC1 = 0xC0 ∨ p &&& 0xC1 = 0xC1) (hfm : s.ym2413 &&& 1 = 0) :
    z80_m3_port_r env p s =
      (u8 (env.io_z80_read s (p &&& 1)), s.emit (.io_z80_read (p &&& 1))) ∧
    z80_m3_port_w p d s = s := by
  have hn : ¬ (p &&& 4 = 0 ∧ s.ym2413 &&& 1 ≠ 0) := fun h => h.2 hfm
  constructor
  · have hr : z80_m3_port_r env p s =
        if p &&& 4 = 0 ∧ s.ym2413 &&& 1 ≠ 0 then
          (u8 (env.fm_read s s.z80_cycles p), s.emit (.fm_read s.z80_cycles p))
        else (u8 (env.io_z80_read s (p &&& 1)), s.emit (.io_z80_read (p &&& 1))) := by
      unfold z80_m3_port_r
      rcases hb with h | h <;> rw [h]
    rw [hr, if_neg hn]
  · have hw : z80_m3_port_w p d s =
        if p &&& 4 = 0 ∧ s.ym2413 &&& 1 ≠ 0 then
          (if p &&& 2 ≠ 0 then
            (s.emit (.fm_write s.z80_cycles p d)).emit
              (.psg_config s.z80_cycles s.psg_preamp (if d &&& 0x01 ≠ 0 then 0x00 else 0xff))
          else s.emit (.fm_write s.z80_cycles p d))
        else s := by
      unfold z80_m3_port_w
      rcases hb with h | h <;> rw [h] <;> rfl
    rw [hw, if_neg hn]

/-- Witness of C17 (amended): with the FM flag unset, the read of port `0xC1` returns the
peripheral controller's answer for parity 1 and the write to port `0xC1` does nothing. -/
theorem m3_default_bucket_fm_off_witness :
    z80_m3_port_r Env.demo 0xC1 State.zero =
      (u8 (Env.demo.io_z80_read State.zero (0xC1 &&& 1)),
        State.zero.emit (.io_z80_read (0xC1 &&& 1))) ∧
    z80_m3_port_w 0xC1 0x05 State.zero = State.zero :=
  m3_default_bucket_fm_off Env.demo State.zero 0xC1 0x05 (by decide) (by decide)

/-- C18 (Game Gear peripheral bucket writes): for a port with `(p & 0xC1)` equal to `0x00`
or `0x01`, `z80_gg_port_w` calls `io_gg_write(low byte, d)` when the low byte is below
`0x07` and `system_hw` is `SYSTEM_GG`, calls
`io_z80_write(p & 1, d, Z80.cycles + SMS_CYCLE_OFFSET)` when the low byte is `0x3E` or
`0x3F`, whatever the hardware, and does nothing in every other case, a low byte below
`0x07` on other hardware included. -/
theorem gg_peripheral_bucket_write (env : Env) (s : State) (p d : Nat)
    (hb : p &&& 0xC1 = 0x00 ∨ p &&& 0xC1 = 0x01) :
    (p &&& 0xFF < 0x07 ∧ s.system_hw = env.SYSTEM_GG →
      z80_gg_port_w env p d s = s.emit (.io_gg_write (p &&& 0xFF) d)) ∧
    (p &&& 0xFF = 0x3E ∨ p &&& 0xFF = 0x3F →
      z80_gg_port_w env p d s =
        s.emit (.io_z80_write (p &&& 1) d (u32 (s.z80_cycles + env.SMS_CYCLE_OFFSET)))) ∧
    (¬ (p &&& 0xFF < 0x07 ∧ s.system_hw = env.SYSTEM_GG) →
      ¬ (p &&& 0xFF = 0x3E ∨ p &&& 0xFF = 0x3F) →
      z80_gg_port_w env p d s = s) ∧
    (p &&& 0xFF < 0x07 → s.system_hw ≠ env.SYSTEM_GG → z80_gg_port_w env p d s = s) := by
  have hw : z80_gg_port_w env p d s =
      if p &&& 0xFF < 0x07 then
        (if s.system_hw = env.SYSTEM_GG then s.emit (.io_gg_write (p &&& 0xFF) d) else s)
      else if p &&& 0xFF = 0x3E ∨ p &&& 0xFF = 0x3F then
        s.emit (.io_z80_write ((p &&& 0xFF) &&& 1) d
          (u32 (s.z80_cycles + env.SMS_CYCLE_OFFSET)))
      else s := by
    unfold z80_gg_port_w
    rcases hb with h | h <;> rw [h] <;> rfl
  refine ⟨fun h => ?_, fun h => ?_, fun h1 h2 => ?_, fun h1 h2 => ?_⟩
  · rw [hw, if_pos h.1, if_pos h.2]
  · have hlt : ¬ (p &&& 0xFF < 0x07) := by rcases h with h | h <;> omega
    rw [hw, if_neg hlt, if_pos h, and_1_low_byte]
  · rw [hw]
    by_cases hlt : p &&& 0xFF < 0x07
    · have hhw : ¬ s.system_hw = env.SYSTEM_GG := fun e => h1 ⟨hlt, e⟩
      rw [if_pos hlt, if_neg hhw]
    · rw [if_neg hlt, if_neg h2]
  · rw [hw, if_pos h1, if_neg h2]

/-- Witness of C18: on Game Gear hardware a write to port `0x06` reaches the handheld
chip, on other hardware it does nothing, and a write to port `0x3F` reaches the peripheral
controller on other hardware too. -/
theorem gg_peripheral_bucket_write_witness :
    z80_gg_port_w Env.demo 0x06 0x05 State.gg = State.gg.emit (.io_gg_write (0x06 &&& 0xFF) 0x05) ∧
    z80_gg_port_w Env.demo 0x06 0x05 State.zero = State.zero ∧
    z80_gg_port_w Env.demo 0x3F 0x05 State.zero =
      State.zero.emit (.io_z80_write (0x3F &&& 1) 0x05
        (u32 (State.zero.z80_cycles + Env.demo.SMS_CYCLE_OFFSET))) :=
  ⟨(gg_peripheral_bucket_write Env.demo State.gg 0x06 0x05 (by decide)).1 (by decide),
   (gg_peripheral_bucket_write Env.demo State.zero 0x06 0x05 (by decide)).2.2.2
     (by decide) (by decide),
   (gg_peripheral_bucket_write Env.demo State.zero 0x3F 0x05 (by decide)).2.1 (by decide)⟩

/-- C19 (unused port read): `z80_unused_port_r` leaves the state as it is; it returns
`0xFF` unless `system_hw` is `SYSTEM_SMS`, and then, for a 16-bit program counter `pc`,
the byte `z80_readmap[a >> 10][a & 0x3FF]` at `a = (pc - 1) mod 2 ^ 16`, which is `0xFFFF`
for `pc = 0`; the result is the same for any two port arguments. -/
theorem unused_port_read (env : Env) (s : State) (port port2 : Nat) :
    (z80_unused_port_r env port s).2 = s ∧
    (s.system_hw ≠ env.SYSTEM_SMS → (z80_unused_port_r env port s).1 = 0xFF) ∧
    (s.system_hw = env.SYSTEM_SMS → s.z80_pc < 65536 →
      (z80_unused_port_r env port s).1 =
        u8 (s.z80_readmap (((s.z80_pc + 65535) % 65536) >>> 10)
          (((s.z80_pc + 65535) % 65536) &&& 0x3FF)) ∧
      (1 ≤ s.z80_pc → (s.z80_pc + 65535) % 65536 = s.z80_pc - 1) ∧
      (s.z80_pc = 0 → (s.z80_pc + 65535) % 65536 = 0xFFFF)) ∧
    z80_unused_port_r env port s = z80_unused_port_r env port2 s := by
  refine ⟨unused_port_r_state env s port, fun h => ?_, fun h hpc => ⟨?_, ?_, ?_⟩, rfl⟩
  · unfold z80_unused_port_r; rw [if_neg h]
  · have ha : u32 (s.z80_pc + 4294967295) &&& 0xFFFF = (s.z80_pc + 65535) % 65536 := by
      rw [and_FFFF]; unfold u32; omega
    unfold z80_unused_port_r
    rw [if_pos h]
    simp only [ha]
  · intro h1; omega
  · intro h0; omega

/-- Witness of C19: on `SYSTEM_SMS` hardware with the program counter at 0, the unused
port read returns the byte at `0xFFFF` (here `0x76`), whatever the port; on other
hardware it returns `0xFF`. -/
theorem unused_port_read_witness :
    (z80_unused_port_r Env.demo 0x3E State.sms_pc0).1 =
      u8 (State.sms_pc0.z80_readmap (((State.sms_pc0.z80_pc + 65535) % 65536) >>> 10)
        (((State.sms_pc0.z80_pc + 65535) % 65536) &&& 0x3FF)) ∧
    (State.sms_pc0.z80_pc + 65535) % 65536 = 0xFFFF ∧
    (z80_unused_port_r Env.demo 0x3E State.zero).1 = 0xFF :=
  ⟨((unused_port_read Env.demo State.sms_pc0 0x3E 0).2.2.1 (by decide) (by decide)).1,
   ((unused_port_read Env.demo State.sms_pc0 0x3E 0).2.2.1 (by decide) (by decide)).2.2
     (by decide),
   (unused_port_read Env.demo State.zero 0x3E 0).2.1 (by decide)⟩

/-- The bucket of a port is the bucket of its low byte. -/
theorem and_C1_FF (p : Nat) : (p &&& 0xFF) &&& 0xC1 = p &&& 0xC1 := by
  rw [Nat.and_assoc]; rfl

/-- Masking with `0xFF` twice is masking once. -/
theorem and_FF_FF (p : Nat) : (p &&& 0xFF) &&& 0xFF = p &&& 0xFF := by
  rw [Nat.and_assoc]; rfl

/-- The mask `0xFE` only looks at the low byte. -/
theorem and_FE_FF (p : Nat) : (p &&& 0xFF) &&& 0xFE = p &&& 0xFE := by
  rw [Nat.and_assoc]; rfl

/-- Bit 2 of a port is bit 2 of its low byte. -/
theorem and_4_FF (p : Nat) : (p &&& 0xFF) &&& 4 = p &&& 4 := by
  rw [Nat.and_assoc]; rfl

/-- Bit 1 of a port is bit 1 of its low byte. -/
theorem and_2_FF (p : Nat) : (p &&& 0xFF) &&& 2 = p &&& 2 := by
  rw [Nat.and_assoc]; rfl

/-- C20, counterexample: with the FM flag set, the Mark III write to port `0x01F0` calls
`fm_write` with address argument `0x01F0`, the write to port `0x01F0 & 0xFF = 0xF0` calls
it with `0xF0`: the collaborator calls of the two writes differ in an argument. -/
theorem port_high_byte_ignored_counterexample :
    (0x01F0 &&& 0xFF = 0xF0) ∧
    (z80_m3_port_w 0x01F0 0x05 State.fm_on).calls = [Call.fm_write 1000 0x01F0 0x05] ∧
    (z80_m3_port_w (0x01F0 &&& 0xFF) 0x05 State.fm_on).calls = [Call.fm_write 1000 0xF0 0x05] ∧
    z80_m3_port_w 0x01F0 0x05 State.fm_on ≠ z80_m3_port_w (0x01F0 &&& 0xFF) 0x05 State.fm_on := by
  refine ⟨by decide, by decide, by decide, fun h => ?_⟩
  have hc := congrArg State.calls h
  revert hc
  decide

/-- C20, amended: the Genesis-mode, Game Gear and SG-1000 port handlers give the same
result (state, calls with arguments, returned value) on `p` and on `p & 0xFF`; so do the
Master System and Mark III handlers whenever the access does not reach the FM board, that
is when `config.ym2413 & 1` is clear, or bit 2 of `p` is set, or `p` is outside the default
bucket, or (Master System) the region is `REGION_JAPAN_NTSC`.  When it does reach the FM
board, `fm_write` and `fm_read` get the port `p` as given for their address argument. -/
theorem port_high_byte_ignored (env : Env) (s : State) (p d : Nat) :
    (z80_md_port_w env p d s = z80_md_port_w env (p &&& 0xFF) d s ∧
     z80_md_port_r env p s = z80_md_port_r env (p &&& 0xFF) s ∧
     z80_gg_port_w env p d s = z80_gg_port_w env (p &&& 0xFF) d s ∧
     z80_gg_port_r env p s = z80_gg_port_r env (p &&& 0xFF) s ∧
     z80_sg_port_w p d s = z80_sg_port_w (p &&& 0xFF) d s ∧
     z80_sg_port_r env p s = z80_sg_port_r env (p &&& 0xFF) s) ∧
    (s.region_code = env.REGION_JAPAN_NTSC ∨ s.ym2413 &&& 1 = 0 ∨ p &&& 4 ≠ 0 ∨
        (p &&& 0xC1 ≠ 0xC0 ∧ p &&& 0xC1 ≠ 0xC1) →
      z80_ms_port_w env p d s = z80_ms_port_w env (p &&& 0xFF) d s ∧
      z80_ms_port_r env p s = z80_ms_port_r env (p &&& 0xFF) s) ∧
    (s.ym2413 &&& 1 = 0 ∨ p &&& 4 ≠ 0 ∨ (p &&& 0xC1 ≠ 0xC0 ∧ p &&& 0xC1 ≠ 0xC1) →
      z80_m3_port_w p d s = z80_m3_port_w (p &&& 0xFF) d s ∧
      z80_m3_port_r env p s = z80_m3_port_r env (p &&& 0xFF) s) ∧
    ((p &&& 0xC1 = 0xC0 ∨ p &&& 0xC1 = 0xC1) → p &&& 4 = 0 → s.ym2413 &&& 1 ≠ 0 →
      z80_m3_port_r env p s =
        (u8 (env.fm_read s s.z80_cycles p), s.emit (.fm_read s.z80_cycles p)) ∧
      z80_m3_port_w p d s =
        (if p &&& 2 ≠ 0 then
          (s.emit (.fm_write s.z80_cycles p d)).emit
            (.psg_config s.z80_cycles s.psg_preamp (if d &&& 0x01 ≠ 0 then 0x00 else 0xff))
        else s.emit (.fm_write s.z80_cycles p d)) ∧
      (s.region_code ≠ env.REGION_JAPAN_NTSC →
        z80_ms_port_w env p d s = s.emit (.fm_write s.z80_cycles p d) ∧
        z80_ms_port_r env p s =
          (if s.io_reg 0x0E &&& 0x04 = 0 then
            (u8 (u8 (env.fm_read s s.z80_cycles p) &&&
                env.io_z80_read (s.emit (.fm_read s.z80_cycles p)) (p &&& 1)),
              (s.emit (.fm_read s.z80_cycles p)).emit (.io_z80_read (p &&& 1)))
          else (u8 (env.fm_read s s.z80_cycles p), s.emit (.fm_read s.z80_cycles p))))) := by
  refine ⟨⟨?_, ?_, ?_, ?_, ?_, ?_⟩, fun hc => ⟨?_, ?_⟩, fun hc => ⟨?_, ?_⟩,
    fun hb h4 hfm => ⟨?_, ?_, fun hreg => ⟨?_, ?_⟩⟩⟩
  · unfold z80_md_port_w; simp only [and_C1_FF, and_FF_FF]
  · unfold z80_md_port_r; simp only [and_C1_FF, and_FF_FF]
  · unfold z80_gg_port_w; simp only [and_C1_FF, and_FF_FF]
  · unfold z80_gg_port_r; simp only [and_C1_FF, and_FF_FF]
  · unfold z80_sg_port_w; simp only [and_C1_FF, and_FF_FF]
  · unfold z80_sg_port_r; simp only [and_C1_FF, and_FF_FF, and_1_low_byte]
  · unfold z80_ms_port_w
    simp only [and_C1_FF, and_FF_FF, and_1_low_byte, and_FE_FF, and_4_FF]
    rcases bucket_cases p with h | h | h | h | h | h | h | h <;> rw [h] <;> try rfl
    all_goals
      simp only []
      by_cases hfm : s.ym2413 &&& 1 = 0
      · simp only [hfm, ne_eq, not_true_eq_false, if_false]
      · by_cases hreg : s.region_code = env.REGION_JAPAN_NTSC
        · simp only [hfm, hreg, ne_eq, not_false_eq_true, if_true]
        · by_cases h4 : p &&& 4 = 0
          · rcases hc with hc | hc | hc | hc
            · exact absurd hc hreg
            · exact absurd hc hfm
            · exact absurd h4 hc
            · omega
          · simp only [hfm, hreg, h4, ne_eq, not_false_eq_true, if_true, if_false]
  · unfold z80_ms_port_r
    simp only [and_C1_FF, and_FF_FF, and_1_low_byte, and_4_FF]
    rcases bucket_cases p with h | h | h | h | h | h | h | h <;> rw [h] <;> try rfl
    all_goals
      simp only []
      by_cases hreg : s.region_code = env.REGION_JAPAN_NTSC
      · simp only [hreg, if_true]
      · have hn : ¬ (p &&& 4 = 0 ∧ s.ym2413 &&& 1 ≠ 0) := by
          rintro ⟨h4, hfm⟩
          rcases hc with hc | hc | hc | hc
          · exact hreg hc
          · exact hfm hc
          · exact hc h4
          · omega
        simp only [hreg, hn, if_false]
  · unfold z80_m3_port_w
    simp only [and_C1_FF, and_FF_FF, and_4_FF, and_2_FF]
    rcases bucket_cases p with h | h | h | h | h | h | h | h <;> rw [h] <;> try rfl
    all_goals
      simp only []
      have hn : ¬ (p &&& 4 = 0 ∧ s.ym2413 &&& 1 ≠ 0) := by
        rintro ⟨h4, hfm⟩
        rcases hc with hc | hc | hc
        · exact hfm hc
        · exact hc h4
        · omega
      simp only [hn, if_false]
  · unfold z80_m3_port_r
    simp only [and_C1_FF, and_FF_FF, and_4_FF, and_1_low_byte]
    rcases bucket_cases p with h | h | h | h | h | h | h | h <;> rw [h] <;> try rfl
    all_goals
      simp only []
      have hn : ¬ (p &&& 4 = 0 ∧ s.ym2413 &&& 1 ≠ 0) := by
        rintro ⟨h4, hfm⟩
        rcases hc with hc | hc | hc
        · exact hfm hc
        · exact hc h4
        · omega
      simp only [hn, if_false]
  · have hcond : p &&& 4 = 0 ∧ s.ym2413 &&& 1 ≠ 0 := ⟨h4, hfm⟩
    unfold z80_m3_port_r
    rcases hb with h | h <;> rw [h] <;> exact if_pos hcond
  · have hcond : p &&& 4 = 0 ∧ s.ym2413 &&& 1 ≠ 0 := ⟨h4, hfm⟩
    unfold z80_m3_port_w
    rcases hb with h | h <;> rw [h] <;> exact if_pos hcond
  · unfold z80_ms_port_w
    rcases hb with h | h <;> rw [h] <;>
      exact (if_pos hfm).trans ((if_neg hreg).trans (if_pos h4))
  · have hcond : p &&& 4 = 0 ∧ s.ym2413 &&& 1 ≠ 0 := ⟨h4, hfm⟩
    have hio : ∀ c, (s.emit c).io_reg = s.io_reg := fun _ => rfl
    unfold z80_ms_port_r
    rcases hb with h | h <;> rw [h] <;>
      simp only [] <;> rw [if_neg hreg, if_pos hcond] <;> simp only [hio]

/-- Witness of C20 (amended): the Genesis-mode write to port `0x12F1` equals the write to
port `0xF1`; with the FM flag clear the Mark III write to port `0x01F0` equals the write to
port `0xF0`; with the FM flag set it calls `fm_write` with address argument `0x01F0`. -/
theorem port_high_byte_ignored_witness :
    z80_md_port_w Env.demo 0x12F1 0x05 State.fm_on =
      z80_md_port_w Env.demo (0x12F1 &&& 0xFF) 0x05 State.fm_on ∧
    z80_m3_port_w 0x01F0 0x05 State.zero = z80_m3_port_w (0x01F0 &&& 0xFF) 0x05 State.zero ∧
    z80_m3_port_w 0x01F0 0x05 State.fm_on =
      (if 0x01F0 &&& 2 ≠ 0 then
        (State.fm_on.emit (.fm_write State.fm_on.z80_cycles 0x01F0 0x05)).emit
          (.psg_config State.fm_on.z80_cycles State.fm_on.psg_preamp
            (if 0x05 &&& 0x01 ≠ 0 then 0x00 else 0xff))
      else State.fm_on.emit (.fm_write State.fm_on.z80_cycles 0x01F0 0x05)) :=
  ⟨(port_high_byte_ignored Env.demo State.fm_on 0x12F1 0x05).1.1,
   ((port_high_byte_ignored Env.demo State.zero 0x01F0 0x05).2.2.1
     (Or.inl (by decide))).1,
   ((port_high_byte_ignored Env.demo State.fm_on 0x01F0 0x05).2.2.2
     (by decide) (by decide) (by decide)).2.1⟩

/-- The 68k wait-state formula takes only two values: 77 for remainders 5 and 6, else 70. -/
theorem wait_state_values (c : Nat) :
    (c % 7 = 5 ∨ c % 7 = 6 → (((c % 7) + 72) / 7) * 7 = 77) ∧
    (¬ (c % 7 = 5 ∨ c % 7 = 6) → (((c % 7) + 72) / 7) * 7 = 70) := by
  have h := Nat.mod_lt c (show 0 < 7 by norm_num)
  constructor
  · intro hc; omega
  · intro hn; omega

/-- The value of `m68k.cycles` after arbitration, with the cycle the formula reads. -/
theorem bus_access_m68k_cycles_eq (s : State) :
    (z80_request_68k_bus_access s).m68k_cycles =
      u32 (s.m68k_cycles +
        ((((if s.z80_cycles < s.dma_endCycles ∧ s.dma_type < 2 then s.dma_endCycles
            else s.z80_cycles) % 7) + 72) / 7) * 7) := by
  unfold z80_request_68k_bus_access
  by_cases hc : s.z80_cycles < s.dma_endCycles ∧ s.dma_type < 2
  · simp only [hc, and_self, if_true]
    split <;> rfl
  · simp only [hc, if_false]

/-- C21 (bounded 68k charge): absent 32-bit wrap-around, one call of
`z80_request_68k_bus_access` adds exactly 70 or exactly 77 to `m68k.cycles`; it adds 77
exactly when the Z80 cycle the formula reads (`dma_endCycles` when the DMA stall happens,
the cycle before the call otherwise, in both cases before the 45-cycle charge) is congruent
to 5 or 6 modulo 7, and 70 otherwise. -/
theorem bus_access_m68k_charge_bounded (s : State) (hw : s.m68k_cycles + 77 < 2 ^ 32) :
    ((z80_request_68k_bus_access s).m68k_cycles = s.m68k_cycles + 70 ∨
      (z80_request_68k_bus_access s).m68k_cycles = s.m68k_cycles + 77) ∧
    ((z80_request_68k_bus_access s).m68k_cycles = s.m68k_cycles + 77 ↔
      ((if s.z80_cycles < s.dma_endCycles ∧ s.dma_type < 2 then s.dma_endCycles
        else s.z80_cycles) % 7 = 5 ∨
       (if s.z80_cycles < s.dma_endCycles ∧ s.dma_type < 2 then s.dma_endCycles
        else s.z80_cycles) % 7 = 6)) := by
  have hw2 : s.m68k_cycles + 77 < 4294967296 := by norm_num at hw; exact hw
  have hv := wait_state_values
    (if s.z80_cycles < s.dma_endCycles ∧ s.dma_type < 2 then s.dma_endCycles
     else s.z80_cycles)
  rw [bus_access_m68k_cycles_eq]
  unfold u32
  by_cases hc :
      (if s.z80_cycles < s.dma_endCycles ∧ s.dma_type < 2 then s.dma_endCycles
        else s.z80_cycles) % 7 = 5 ∨
      (if s.z80_cycles < s.dma_endCycles ∧ s.dma_type < 2 then s.dma_endCycles
        else s.z80_cycles) % 7 = 6
  · rw [hv.1 hc]
    refine ⟨Or.inr (by omega), ⟨fun _ => hc, fun _ => by omega⟩⟩
  · rw [hv.2 hc]
    refine ⟨Or.inl (by omega), ⟨fun h => ?_, fun h => absurd h hc⟩⟩
    omega

/-- Witness of C21: with the DMA stall moving the Z80 from cycle 0 to cycle 5, the charge
is 77; with the Z80 at cycle 100 (remainder 2) and no stall, the charge is 70. -/
theorem bus_access_m68k_charge_bounded_witness :
    (z80_request_68k_bus_access State.dma_busy).m68k_cycles =
      State.dma_busy.m68k_cycles + 77 ∧
    ((z80_request_68k_bus_access State.dma_done).m68k_cycles =
        State.dma_done.m68k_cycles + 70 ∨
      (z80_request_68k_bus_access State.dma_done).m68k_cycles =
        State.dma_done.m68k_cycles + 77) ∧
    ¬ ((z80_request_68k_bus_access State.dma_done).m68k_cycles =
        State.dma_done.m68k_cycles + 77) :=
  ⟨(bus_access_m68k_charge_bounded State.dma_busy (by decide)).2.2 (by decide),
   (bus_access_m68k_charge_bounded State.dma_done (by decide)).1,
   fun h => absurd ((bus_access_m68k_charge_bounded State.dma_done (by decide)).2.1 h)
     (by decide)⟩

end MemZ80
